import Mathlib

/-!
Verification of the channel-pairing approval workflow
(`src/gateway/server-methods/pairing.ts` and `src/gateway/pairing-http.ts`).

The two TypeScript adapters are embedded shallowly: external collaborators
(channel registry, pairing store, notifier, config loader, authorization
engine) are parameters of the model (`Collab`), JavaScript runtime values
that cross the validation boundary are modelled by `JsValue`, and each
adapter is a total Lean function from its inputs and the collaborator
behaviours to a structured outcome plus a trace of the external calls it
made (store list/approve, notifier, gateway broadcast).
-/

set_option autoImplicit false

namespace Pairing

/-- Whitespace characters removed by the JavaScript `String.prototype.trim`
(ECMAScript WhiteSpace plus LineTerminator code points). -/
def isJsWhitespaceChar (c : Char) : Bool :=
  c == ' ' || c == '\t' || c == '\n' || c == '\u000b' || c == '\u000c' || c == '\r' ||
  c == '\u00a0' || c == '\u1680' ||
  (decide (0x2000 ≤ c.toNat) && decide (c.toNat ≤ 0x200a)) ||
  c == '\u202f' || c == '\u205f' || c == '\u3000' ||
  c == '\u2028' || c == '\u2029' || c == '\ufeff'

/-- Model of `raw.trim()`: drop the whitespace characters from both ends. -/
def jsTrim (s : String) : String :=
  ⟨((s.data.dropWhile isJsWhitespaceChar).reverse.dropWhile isJsWhitespaceChar).reverse⟩

/-- Model of one character of `String.prototype.toLowerCase`. The sources
compare against an ASCII registry and an ASCII-only pattern, so the ASCII
fragment of Unicode lowercasing is modelled: `A`..`Z` map to `a`..`z`,
every other character is unchanged. -/
def jsLowerChar (c : Char) : Char :=
  if 65 ≤ c.toNat ∧ c.toNat ≤ 90 then Char.ofNat (c.toNat + 32) else c

/-- Model of `s.toLowerCase()`. -/
def jsToLower (s : String) : String :=
  ⟨s.data.map jsLowerChar⟩

/-- Test for `[a-z]`. -/
def isAsciiLowerAlpha (c : Char) : Bool :=
  decide (97 ≤ c.toNat) && decide (c.toNat ≤ 122)

/-- Test for `[a-z0-9_-]`. -/
def isExtensionChar (c : Char) : Bool :=
  isAsciiLowerAlpha c || (decide (48 ≤ c.toNat) && decide (c.toNat ≤ 57)) ||
  c == '_' || c == '-'

/-- Anchored test of the extension-channel regular expression
`^[a-z][a-z0-9_-]{0,63}$` from both source files. -/
def matchesExtensionPattern (s : String) : Bool :=
  match s.data with
  | [] => false
  | c :: rest => isAsciiLowerAlpha c && decide (rest.length ≤ 63) && rest.all isExtensionChar

/-- Embedding of `resolveChannel` (identical in both source files). The
external `listPairingChannels()` registry is the `channels` parameter. -/
def resolveChannel (channels : List String) (raw : String) : Option String :=
  let value := jsToLower (jsTrim raw)
  if channels.contains value then some value
  else if matchesExtensionPattern value then some value
  else none


/-- JavaScript runtime values reaching the adapters (the payload of a
gateway request and the result of `JSON.parse` on an HTTP body). Object
fields are an association list; `JSON.parse` arrays are not modelled
because no claim distinguishes them from other non-string field values. -/
inductive JsValue where
  | null
  | bool (b : Bool)
  | num (n : Int)
  | str (s : String)
  | obj (fields : List (String × JsValue))

/-- Field access `v.k` on a JavaScript object (`none` = `undefined`). -/
def getField : JsValue → String → Option JsValue
  | JsValue.obj fields, key => fields.lookup key
  | _, _ => none

/-- Field access followed by the `typeof x === "string"` test. -/
def getStrField (v : JsValue) (key : String) : Option String :=
  match getField v key with
  | some (JsValue.str s) => some s
  | _ => none

/-- JavaScript truthiness of an optional field value (`none` = absent
field, hence `undefined`, hence falsy). -/
def jsTruthy : Option JsValue → Bool
  | none => false
  | some JsValue.null => false
  | some (JsValue.bool b) => b
  | some (JsValue.num n) => n != 0
  | some (JsValue.str s) => s != ""
  | some (JsValue.obj _) => true

/-- Embedding of `validateChannelPairListParams`. -/
def validateChannelPairListParams (params : JsValue) : Bool :=
  match params with
  | JsValue.obj _ =>
    match getStrField params "channel" with
    | some c => jsTrim c != ""
    | none => false
  | _ => false

/-- Embedding of `validateChannelPairApproveParams` (the optional `notify`
field is not inspected by the source validator). -/
def validateChannelPairApproveParams (params : JsValue) : Bool :=
  match params with
  | JsValue.obj _ =>
    (match getStrField params "channel" with
     | some c => jsTrim c != ""
     | none => false)
    &&
    (match getStrField params "code" with
     | some c => jsTrim c != ""
     | none => false)
  | _ => false

/-- Gateway protocol error codes. `INVALID_REQUEST` and `UNAVAILABLE` are
the two members of the external `ErrorCodes` enum used by the sources;
`NOT_FOUND` is the distinct not-found category of the specification
taxonomy, listed here so that its absence from the gateway responses is
expressible. -/
inductive ErrorCode where
  | INVALID_REQUEST
  | UNAVAILABLE
  | NOT_FOUND
  deriving DecidableEq, Repr

/-- Embedding of the external `errorShape(code, message)` result shape. -/
structure ErrorShape where
  code : ErrorCode
  message : String
  deriving DecidableEq, Repr

/-- Opaque configuration object returned by the external `loadConfig()`. -/
structure Config where
  deriving DecidableEq, Repr

/-- Row of the pending-request list returned by the external store. -/
structure PairingRequest where
  id : String
  code : String
  deriving DecidableEq, Repr

/-- Successful result of the external `approveChannelPairingCode`. -/
structure PairingApproved where
  id : String
  deriving DecidableEq, Repr

/-- External calls observable by the store, the notifier and the gateway
broadcast sink, in the order the adapters issue them. Log lines are not
recorded: the logger is write-only and no claim mentions it. -/
inductive Event where
  | storeList (channel : String)
  | storeApprove (channel : String) (code : String)
  | notifyReq (channelId : String) (id : String)
  | broadcast (method : String) (channel : String) (id : String)
      (decision : String) (ts : Nat)
  deriving DecidableEq, Repr

/-- Behaviour of the external collaborators during one request. Each
fallible collaborator is an `Except`: `Except.error e` models a thrown
exception / rejected promise whose `String(err)` rendering is `e`. -/
structure Collab where
  channels : List String
  listReqs : String → Except String (List PairingRequest)
  approveCode : String → String → Except String (Option PairingApproved)
  notifyApproved : String → String → Config → Except String Unit
  config : Except String Config
  authorize : String → Except String Bool
  now : Nat

/-- Success payload passed to `respond` by the gateway handlers. -/
structure GatewayPayload where
  channel : String
  requests : Option (List PairingRequest) := none
  id : Option String := none
  approved : Option Bool := none
  deriving DecidableEq, Repr

/-- Outcome of one gateway handler invocation: the `respond` arguments
plus the trace of external calls. -/
structure GatewayOutcome where
  ok : Bool
  payload : Option GatewayPayload
  error : Option ErrorShape
  events : List Event
  deriving DecidableEq, Repr

/-- Embedding of the `channel.pair.list` gateway handler. -/
def gatewayPairList (env : Collab) (params : JsValue) : GatewayOutcome :=
  if validateChannelPairListParams params then
    let channelRaw := (getStrField params "channel").getD ""
    match resolveChannel env.channels channelRaw with
    | none =>
      { ok := false, payload := none,
        error := some ⟨ErrorCode.INVALID_REQUEST, "invalid channel: " ++ channelRaw⟩,
        events := [] }
    | some channel =>
      match env.listReqs channel with
      | Except.ok requests =>
        { ok := true,
          payload := some { channel := channel, requests := some requests },
          error := none, events := [Event.storeList channel] }
      | Except.error e =>
        { ok := false, payload := none,
          error := some ⟨ErrorCode.UNAVAILABLE, e⟩,
          events := [Event.storeList channel] }
  else
    { ok := false, payload := none,
      error := some ⟨ErrorCode.INVALID_REQUEST,
        "invalid channel.pair.list params: channel (string) required"⟩,
      events := [] }

/-- Embedding of the `channel.pair.approve` gateway handler. The `.catch`
attached to the notifier call is modelled by discarding the notifier
result after recording the call; `loadConfig()` and the store call sit
inside the surrounding try/catch, whose catch arm responds `UNAVAILABLE`. -/
def gatewayPairApprove (env : Collab) (params : JsValue) : GatewayOutcome :=
  if validateChannelPairApproveParams params then
    let channelRaw := (getStrField params "channel").getD ""
    let code := (getStrField params "code").getD ""
    match resolveChannel env.channels channelRaw with
    | none =>
      { ok := false, payload := none,
        error := some ⟨ErrorCode.INVALID_REQUEST, "invalid channel: " ++ channelRaw⟩,
        events := [] }
    | some channel =>
      match env.approveCode channel code with
      | Except.error e =>
        { ok := false, payload := none,
          error := some ⟨ErrorCode.UNAVAILABLE, e⟩,
          events := [Event.storeApprove channel code] }
      | Except.ok none =>
        { ok := false, payload := none,
          error := some ⟨ErrorCode.INVALID_REQUEST,
            "no pending pairing request found for code: " ++ code⟩,
          events := [Event.storeApprove channel code] }
      | Except.ok (some approved) =>
        let evs := [Event.storeApprove channel code,
          Event.broadcast "channel.pair.resolved" channel approved.id "approved" env.now]
        if jsTruthy (getField params "notify") then
          match env.config with
          | Except.error e =>
            { ok := false, payload := none,
              error := some ⟨ErrorCode.UNAVAILABLE, e⟩, events := evs }
          | Except.ok cfg =>
            let _ := env.notifyApproved channel approved.id cfg
            let payload : GatewayPayload :=
              { channel := channel, id := some approved.id, approved := some true }
            { ok := true, payload := some payload, error := none,
              events := evs ++ [Event.notifyReq channel approved.id] }
        else
          let payload : GatewayPayload :=
            { channel := channel, id := some approved.id, approved := some true }
          { ok := true, payload := some payload, error := none, events := evs }
  else
    { ok := false, payload := none,
      error := some ⟨ErrorCode.INVALID_REQUEST,
        "invalid channel.pair.approve params: channel (string) and code (string) required"⟩,
      events := [] }

/-- The fixed HTTP path base `PAIRING_BASE_PATH`. -/
def PAIRING_BASE_PATH : String := "/api/pairing"

/-- One inbound HTTP request as the handler observes it: the parsed URL
pathname, the method, the `JSON.parse` outcome of the body (`none` when
parsing threw), and the two authorization inputs. -/
structure HttpRequest where
  pathname : String
  method : String
  parsedBody : Option JsValue
  localDirect : Bool
  bearer : Option String

/-- Embedding of `readJsonBody`: keep the parse result only when it is a
non-null object, otherwise yield `null` (modelled as `none`). -/
def readJsonBody (parsedBody : Option JsValue) : Option JsValue :=
  match parsedBody with
  | some (JsValue.obj fields) => some (JsValue.obj fields)
  | _ => none

/-- JSON body written by `sendJson`, restricted to the fields the two
routes emit. -/
structure JsonOut where
  ok : Bool
  error : Option String := none
  channel : Option String := none
  requests : Option (List PairingRequest) := none
  id : Option String := none
  approved : Option Bool := none
  deriving DecidableEq, Repr

/-- Result of one `handlePairingHttpRequest` invocation: `unhandled` is
the `return false` path, `responded status body` a `sendJson` followed by
`return true`, and `threw e` an exception escaping the handler. -/
inductive HttpResult where
  | unhandled
  | responded (status : Nat) (body : JsonOut)
  | threw (msg : String)
  deriving DecidableEq, Repr

/-- Outcome of one HTTP invocation plus the trace of external calls. -/
structure HttpOutcome where
  result : HttpResult
  events : List Event
  deriving DecidableEq, Repr

/-- Embedding of the approve-body code extraction: the value of
`typeof body?.code === "string" ? body.code.trim() : ""`. -/
def httpBodyCode (body : Option JsValue) : String :=
  match body.bind (fun b => getStrField b "code") with
  | some s => jsTrim s
  | none => ""

/-- Embedding of the approve-body notify extraction: the value of
`body?.notify === true`. -/
def httpBodyNotify (body : Option JsValue) : Bool :=
  match body.bind (fun b => getField b "notify") with
  | some (JsValue.bool true) => true
  | _ => false

/-- The list/approve action dispatch of `handlePairingHttpRequest`,
reached once the path has two segments, the channel resolved and the
authorization gate passed. -/
def pairingAction (env : Collab) (req : HttpRequest) (channel action : String) :
    HttpOutcome :=
  if action == "list" && req.method == "GET" then
    match env.listReqs channel with
    | Except.ok requests =>
      let body : JsonOut :=
        { ok := true, channel := some channel, requests := some requests }
      { result := HttpResult.responded 200 body,
        events := [Event.storeList channel] }
    | Except.error e =>
      { result := HttpResult.responded 500 { ok := false, error := some e },
        events := [Event.storeList channel] }
  else if action == "approve" && req.method == "POST" then
    let body := readJsonBody req.parsedBody
    let code := httpBodyCode body
    let notify := httpBodyNotify body
    if code == "" then
      { result := HttpResult.responded 400
          { ok := false, error := some "code is required" },
        events := [] }
    else
      match env.approveCode channel code with
      | Except.error e =>
        { result := HttpResult.responded 500 { ok := false, error := some e },
          events := [Event.storeApprove channel code] }
      | Except.ok none =>
        let body : JsonOut :=
          { ok := false,
            error := some ("No pending pairing request found for code: " ++ code) }
        { result := HttpResult.responded 404 body,
          events := [Event.storeApprove channel code] }
      | Except.ok (some approved) =>
        if notify then
          match env.config with
          | Except.error e =>
            { result := HttpResult.responded 500 { ok := false, error := some e },
              events := [Event.storeApprove channel code] }
          | Except.ok cfg =>
            let _ := env.notifyApproved channel approved.id cfg
            let body : JsonOut :=
              { ok := true, channel := some channel, id := some approved.id,
                approved := some true }
            { result := HttpResult.responded 200 body,
              events := [Event.storeApprove channel code,
                Event.notifyReq channel approved.id] }
        else
          let body : JsonOut :=
            { ok := true, channel := some channel, id := some approved.id,
              approved := some true }
          { result := HttpResult.responded 200 body,
            events := [Event.storeApprove channel code] }
  else
    { result := HttpResult.responded 404 { ok := false, error := some "Not Found" },
      events := [] }

/-- Character-level test that `s` starts with `p` (the semantics of the
JavaScript `String.prototype.startsWith` on these code points). -/
def charsStartWith : List Char → List Char → Bool
  | _, [] => true
  | [], _ :: _ => false
  | c :: cs, p :: ps => c == p && charsStartWith cs ps

/-- Model of `pathname.startsWith(base)`. -/
def strStartsWith (s base : String) : Bool :=
  charsStartWith s.data base.data

/-- Model of `pathname.slice(n)` (drop the first `n` code points). -/
def strDrop (s : String) (n : Nat) : String :=
  ⟨s.data.drop n⟩

/-- Splitting on the slash character with empty segments preserved, the
semantics of the JavaScript `split("/")`. -/
def splitSlashAux : List Char → List Char → List String
  | [], acc => [⟨acc.reverse⟩]
  | c :: cs, acc =>
    if c == '/' then ⟨acc.reverse⟩ :: splitSlashAux cs []
    else splitSlashAux cs (c :: acc)

/-- The path-segment computation of `handlePairingHttpRequest`:
`url.pathname.slice(PAIRING_BASE_PATH.length).split("/").filter(Boolean)`. -/
def pathSegs (pathname : String) : List String :=
  (splitSlashAux (strDrop pathname PAIRING_BASE_PATH.length).data []).filter
    (fun s => s != "")

/-- Embedding of `handlePairingHttpRequest`. The awaited call to the
authorization engine is not wrapped in any try/catch in the source, so a
collaborator error there becomes `HttpResult.threw`. -/
def handlePairingHttpRequest (env : Collab) (req : HttpRequest) : HttpOutcome :=
  if !(strStartsWith req.pathname PAIRING_BASE_PATH) then
    { result := HttpResult.unhandled, events := [] }
  else
    let pathParts := pathSegs req.pathname
    match pathParts with
    | [channelRaw, action] =>
      match resolveChannel env.channels channelRaw with
      | none =>
        let body : JsonOut :=
          { ok := false, error := some ("Invalid channel: " ++ channelRaw) }
        { result := HttpResult.responded 400 body, events := [] }
      | some channel =>
        if req.localDirect then
          pairingAction env req channel action
        else
          match req.bearer with
          | none =>
            { result := HttpResult.responded 401
                { ok := false, error := some "Unauthorized" },
              events := [] }
          | some token =>
            match env.authorize token with
            | Except.error e => { result := HttpResult.threw e, events := [] }
            | Except.ok false =>
              { result := HttpResult.responded 401
                  { ok := false, error := some "Unauthorized" },
                events := [] }
            | Except.ok true => pairingAction env req channel action
    | _ =>
      { result := HttpResult.responded 404 { ok := false, error := some "Not Found" },
        events := [] }

/-- The store-approve calls of a trace, as (channel, code) argument pairs. -/
def storeApproveArgs (events : List Event) : List (String × String) :=
  events.foldr (fun e acc =>
    match e with
    | Event.storeApprove channel code => (channel, code) :: acc
    | _ => acc) []

/-- The notifier calls of a trace, as (channelId, id) argument pairs. -/
def notifyArgs (events : List Event) : List (String × String) :=
  events.foldr (fun e acc =>
    match e with
    | Event.notifyReq channelId id => (channelId, id) :: acc
    | _ => acc) []

/-- The broadcast emissions of a trace. -/
def broadcastEvents (events : List Event) : List Event :=
  events.filter (fun e =>
    match e with
    | Event.broadcast _ _ _ _ _ => true
    | _ => false)


/-- The condition under which the HTTP authorization gate lets a request
through: local-direct, or a bearer token the authorization engine
accepts. -/
def authPassed (env : Collab) (req : HttpRequest) : Prop :=
  req.localDirect = true ∨
    ∃ token, req.localDirect = false ∧ req.bearer = some token ∧
      env.authorize token = Except.ok true

/-- Sample collaborator behaviour used to exercise the theorems on
concrete inputs: the registry is ["sms"], the store holds one pending
request with code "123" and id "req_1" for every channel, the notifier
always fails, and the authorization engine accepts exactly the token
"good". -/
def sampleCollab : Collab where
  channels := ["sms"]
  listReqs := fun _ => Except.ok [{ id := "req_1", code := "123" }]
  approveCode := fun _ code =>
    if code == "123" then Except.ok (some { id := "req_1" }) else Except.ok none
  notifyApproved := fun _ _ _ => Except.error "notify failed"
  config := Except.ok {}
  authorize := fun t => if t == "good" then Except.ok true else Except.ok false
  now := 42

/-- Variant of `sampleCollab` whose authorization engine throws. -/
def throwingAuthCollab : Collab :=
  { sampleCollab with authorize := fun _ => Except.error "auth engine failure" }

/-! Helper lemmas evaluating each branch of the embedded handlers. -/

theorem gatewayPairApprove_invalid_params (env : Collab) (params : JsValue)
    (hval : validateChannelPairApproveParams params = false) :
    gatewayPairApprove env params =
      { ok := false, payload := none,
        error := some ⟨ErrorCode.INVALID_REQUEST,
          "invalid channel.pair.approve params: channel (string) and code (string) required"⟩,
        events := [] } := by
  unfold gatewayPairApprove
  simp [hval]

theorem gatewayPairApprove_invalid_channel (env : Collab) (params : JsValue)
    (channelRaw : String)
    (hval : validateChannelPairApproveParams params = true)
    (hch : getStrField params "channel" = some channelRaw)
    (hres : resolveChannel env.channels channelRaw = none) :
    gatewayPairApprove env params =
      { ok := false, payload := none,
        error := some ⟨ErrorCode.INVALID_REQUEST, "invalid channel: " ++ channelRaw⟩,
        events := [] } := by
  unfold gatewayPairApprove
  simp [hval, hch, hres]

theorem gatewayPairApprove_store_error (env : Collab) (params : JsValue)
    (channelRaw code channel e : String)
    (hval : validateChannelPairApproveParams params = true)
    (hch : getStrField params "channel" = some channelRaw)
    (hcode : getStrField params "code" = some code)
    (hres : resolveChannel env.channels channelRaw = some channel)
    (happ : env.approveCode channel code = Except.error e) :
    gatewayPairApprove env params =
      { ok := false, payload := none,
        error := some ⟨ErrorCode.UNAVAILABLE, e⟩,
        events := [Event.storeApprove channel code] } := by
  unfold gatewayPairApprove
  simp [hval, hch, hcode, hres, happ]

theorem gatewayPairApprove_no_match (env : Collab) (params : JsValue)
    (channelRaw code channel : String)
    (hval : validateChannelPairApproveParams params = true)
    (hch : getStrField params "channel" = some channelRaw)
    (hcode : getStrField params "code" = some code)
    (hres : resolveChannel env.channels channelRaw = some channel)
    (happ : env.approveCode channel code = Except.ok none) :
    gatewayPairApprove env params =
      { ok := false, payload := none,
        error := some ⟨ErrorCode.INVALID_REQUEST,
          "no pending pairing request found for code: " ++ code⟩,
        events := [Event.storeApprove channel code] } := by
  unfold gatewayPairApprove
  simp [hval, hch, hcode, hres, happ]

theorem gatewayPairApprove_match_notify_off (env : Collab) (params : JsValue)
    (channelRaw code channel : String) (a : PairingApproved)
    (hval : validateChannelPairApproveParams params = true)
    (hch : getStrField params "channel" = some channelRaw)
    (hcode : getStrField params "code" = some code)
    (hres : resolveChannel env.channels channelRaw = some channel)
    (happ : env.approveCode channel code = Except.ok (some a))
    (hnot : jsTruthy (getField params "notify") = false) :
    gatewayPairApprove env params =
      { ok := true,
        payload := some { channel := channel, id := some a.id, approved := some true },
        error := none,
        events := [Event.storeApprove channel code,
          Event.broadcast "channel.pair.resolved" channel a.id "approved" env.now] } := by
  unfold gatewayPairApprove
  simp [hval, hch, hcode, hres, happ, hnot]

theorem gatewayPairApprove_match_notify_on (env : Collab) (params : JsValue)
    (channelRaw code channel : String) (a : PairingApproved) (cfg : Config)
    (hval : validateChannelPairApproveParams params = true)
    (hch : getStrField params "channel" = some channelRaw)
    (hcode : getStrField params "code" = some code)
    (hres : resolveChannel env.channels channelRaw = some channel)
    (happ : env.approveCode channel code = Except.ok (some a))
    (hnot : jsTruthy (getField params "notify") = true)
    (hcfg : env.config = Except.ok cfg) :
    gatewayPairApprove env params =
      { ok := true,
        payload := some { channel := channel, id := some a.id, approved := some true },
        error := none,
        events := [Event.storeApprove channel code,
          Event.broadcast "channel.pair.resolved" channel a.id "approved" env.now,
          Event.notifyReq channel a.id] } := by
  unfold gatewayPairApprove
  simp [hval, hch, hcode, hres, happ, hnot, hcfg]

theorem gatewayPairApprove_match_config_error (env : Collab) (params : JsValue)
    (channelRaw code channel : String) (a : PairingApproved) (e : String)
    (hval : validateChannelPairApproveParams params = true)
    (hch : getStrField params "channel" = some channelRaw)
    (hcode : getStrField params "code" = some code)
    (hres : resolveChannel env.channels channelRaw = some channel)
    (happ : env.approveCode channel code = Except.ok (some a))
    (hnot : jsTruthy (getField params "notify") = true)
    (hcfg : env.config = Except.error e) :
    gatewayPairApprove env params =
      { ok := false, payload := none,
        error := some ⟨ErrorCode.UNAVAILABLE, e⟩,
        events := [Event.storeApprove channel code,
          Event.broadcast "channel.pair.resolved" channel a.id "approved" env.now] } := by
  unfold gatewayPairApprove
  simp [hval, hch, hcode, hres, happ, hnot, hcfg]

theorem gatewayPairList_invalid_params (env : Collab) (params : JsValue)
    (hval : validateChannelPairListParams params = false) :
    gatewayPairList env params =
      { ok := false, payload := none,
        error := some ⟨ErrorCode.INVALID_REQUEST,
          "invalid channel.pair.list params: channel (string) required"⟩,
        events := [] } := by
  unfold gatewayPairList
  simp [hval]

theorem gatewayPairList_invalid_channel (env : Collab) (params : JsValue)
    (channelRaw : String)
    (hval : validateChannelPairListParams params = true)
    (hch : getStrField params "channel" = some channelRaw)
    (hres : resolveChannel env.channels channelRaw = none) :
    gatewayPairList env params =
      { ok := false, payload := none,
        error := some ⟨ErrorCode.INVALID_REQUEST, "invalid channel: " ++ channelRaw⟩,
        events := [] } := by
  unfold gatewayPairList
  simp [hval, hch, hres]

theorem gatewayPairList_ok (env : Collab) (params : JsValue)
    (channelRaw channel : String) (rs : List PairingRequest)
    (hval : validateChannelPairListParams params = true)
    (hch : getStrField params "channel" = some channelRaw)
    (hres : resolveChannel env.channels channelRaw = some channel)
    (hlist : env.listReqs channel = Except.ok rs) :
    gatewayPairList env params =
      { ok := true,
        payload := some { channel := channel, requests := some rs },
        error := none, events := [Event.storeList channel] } := by
  unfold gatewayPairList
  simp [hval, hch, hres, hlist]

theorem gatewayPairList_store_error (env : Collab) (params : JsValue)
    (channelRaw channel e : String)
    (hval : validateChannelPairListParams params = true)
    (hch : getStrField params "channel" = some channelRaw)
    (hres : resolveChannel env.channels channelRaw = some channel)
    (hlist : env.listReqs channel = Except.error e) :
    gatewayPairList env params =
      { ok := false, payload := none,
        error := some ⟨ErrorCode.UNAVAILABLE, e⟩,
        events := [Event.storeList channel] } := by
  unfold gatewayPairList
  simp [hval, hch, hres, hlist]


theorem handlePairing_unhandled (env : Collab) (req : HttpRequest)
    (hstart : strStartsWith req.pathname PAIRING_BASE_PATH = false) :
    handlePairingHttpRequest env req =
      { result := HttpResult.unhandled, events := [] } := by
  unfold handlePairingHttpRequest
  simp [hstart]

theorem handlePairing_bad_shape (env : Collab) (req : HttpRequest)
    (hstart : strStartsWith req.pathname PAIRING_BASE_PATH = true)
    (hlen : (pathSegs req.pathname).length ≠ 2) :
    handlePairingHttpRequest env req =
      { result := HttpResult.responded 404 { ok := false, error := some "Not Found" },
        events := [] } := by
  unfold handlePairingHttpRequest
  simp only [hstart, Bool.not_true, Bool.false_eq_true, if_false]
  match hx : pathSegs req.pathname with
  | [] => rfl
  | [_] => rfl
  | [a, b] => exact absurd (by rw [hx]; rfl) hlen
  | _ :: _ :: _ :: _ => rfl

theorem handlePairing_invalid_channel (env : Collab) (req : HttpRequest)
    (channelRaw action : String)
    (hstart : strStartsWith req.pathname PAIRING_BASE_PATH = true)
    (hsegs : pathSegs req.pathname = [channelRaw, action])
    (hres : resolveChannel env.channels channelRaw = none) :
    handlePairingHttpRequest env req =
      { result := HttpResult.responded 400
          { ok := false, error := some ("Invalid channel: " ++ channelRaw) },
        events := [] } := by
  unfold handlePairingHttpRequest
  simp [hstart, hsegs, hres]

theorem handlePairing_route_local (env : Collab) (req : HttpRequest)
    (channelRaw action channel : String)
    (hstart : strStartsWith req.pathname PAIRING_BASE_PATH = true)
    (hsegs : pathSegs req.pathname = [channelRaw, action])
    (hres : resolveChannel env.channels channelRaw = some channel)
    (hloc : req.localDirect = true) :
    handlePairingHttpRequest env req = pairingAction env req channel action := by
  unfold handlePairingHttpRequest
  simp [hstart, hsegs, hres, hloc]

theorem handlePairing_route_token (env : Collab) (req : HttpRequest)
    (channelRaw action channel token : String)
    (hstart : strStartsWith req.pathname PAIRING_BASE_PATH = true)
    (hsegs : pathSegs req.pathname = [channelRaw, action])
    (hres : resolveChannel env.channels channelRaw = some channel)
    (hloc : req.localDirect = false)
    (hbear : req.bearer = some token)
    (hauth : env.authorize token = Except.ok true) :
    handlePairingHttpRequest env req = pairingAction env req channel action := by
  unfold handlePairingHttpRequest
  simp [hstart, hsegs, hres, hloc, hbear, hauth]

theorem handlePairing_unauthorized (env : Collab) (req : HttpRequest)
    (channelRaw action channel : String)
    (hstart : strStartsWith req.pathname PAIRING_BASE_PATH = true)
    (hsegs : pathSegs req.pathname = [channelRaw, action])
    (hres : resolveChannel env.channels channelRaw = some channel)
    (hloc : req.localDirect = false)
    (hcred : req.bearer = none ∨
      ∃ token, req.bearer = some token ∧ env.authorize token = Except.ok false) :
    handlePairingHttpRequest env req =
      { result := HttpResult.responded 401
          { ok := false, error := some "Unauthorized" },
        events := [] } := by
  unfold handlePairingHttpRequest
  rcases hcred with hbear | ⟨token, hbear, hauth⟩
  · simp [hstart, hsegs, hres, hloc, hbear]
  · simp [hstart, hsegs, hres, hloc, hbear, hauth]

theorem handlePairing_auth_threw (env : Collab) (req : HttpRequest)
    (channelRaw action channel token e : String)
    (hstart : strStartsWith req.pathname PAIRING_BASE_PATH = true)
    (hsegs : pathSegs req.pathname = [channelRaw, action])
    (hres : resolveChannel env.channels channelRaw = some channel)
    (hloc : req.localDirect = false)
    (hbear : req.bearer = some token)
    (hauth : env.authorize token = Except.error e) :
    handlePairingHttpRequest env req =
      { result := HttpResult.threw e, events := [] } := by
  unfold handlePairingHttpRequest
  simp [hstart, hsegs, hres, hloc, hbear, hauth]

theorem pairingAction_list_ok (env : Collab) (req : HttpRequest)
    (channel : String) (rs : List PairingRequest)
    (hm : req.method = "GET")
    (hlist : env.listReqs channel = Except.ok rs) :
    pairingAction env req channel "list" =
      { result := HttpResult.responded 200
          { ok := true, channel := some channel, requests := some rs },
        events := [Event.storeList channel] } := by
  unfold pairingAction
  simp [hm, hlist]

theorem pairingAction_list_store_error (env : Collab) (req : HttpRequest)
    (channel e : String)
    (hm : req.method = "GET")
    (hlist : env.listReqs channel = Except.error e) :
    pairingAction env req channel "list" =
      { result := HttpResult.responded 500 { ok := false, error := some e },
        events := [Event.storeList channel] } := by
  unfold pairingAction
  simp [hm, hlist]

theorem pairingAction_approve_empty_code (env : Collab) (req : HttpRequest)
    (channel : String)
    (hm : req.method = "POST")
    (hcode : httpBodyCode (readJsonBody req.parsedBody) = "") :
    pairingAction env req channel "approve" =
      { result := HttpResult.responded 400
          { ok := false, error := some "code is required" },
        events := [] } := by
  unfold pairingAction
  simp [hm, hcode]

theorem pairingAction_approve_store_error (env : Collab) (req : HttpRequest)
    (channel code e : String)
    (hm : req.method = "POST")
    (hcode : httpBodyCode (readJsonBody req.parsedBody) = code)
    (hne : code ≠ "")
    (happ : env.approveCode channel code = Except.error e) :
    pairingAction env req channel "approve" =
      { result := HttpResult.responded 500 { ok := false, error := some e },
        events := [Event.storeApprove channel code] } := by
  unfold pairingAction
  simp [hm, hcode, hne, happ]

theorem pairingAction_approve_no_match (env : Collab) (req : HttpRequest)
    (channel code : String)
    (hm : req.method = "POST")
    (hcode : httpBodyCode (readJsonBody req.parsedBody) = code)
    (hne : code ≠ "")
    (happ : env.approveCode channel code = Except.ok none) :
    pairingAction env req channel "approve" =
      { result := HttpResult.responded 404
          { ok := false,
            error := some ("No pending pairing request found for code: " ++ code) },
        events := [Event.storeApprove channel code] } := by
  unfold pairingAction
  simp [hm, hcode, hne, happ]

theorem pairingAction_approve_notify_off (env : Collab) (req : HttpRequest)
    (channel code : String) (a : PairingApproved)
    (hm : req.method = "POST")
    (hcode : httpBodyCode (readJsonBody req.parsedBody) = code)
    (hne : code ≠ "")
    (happ : env.approveCode channel code = Except.ok (some a))
    (hnot : httpBodyNotify (readJsonBody req.parsedBody) = false) :
    pairingAction env req channel "approve" =
      { result := HttpResult.responded 200
          { ok := true, channel := some channel, id := some a.id,
            approved := some true },
        events := [Event.storeApprove channel code] } := by
  unfold pairingAction
  simp [hm, hcode, hne, happ, hnot]

theorem pairingAction_approve_notify_on (env : Collab) (req : HttpRequest)
    (channel code : String) (a : PairingApproved) (cfg : Config)
    (hm : req.method = "POST")
    (hcode : httpBodyCode (readJsonBody req.parsedBody) = code)
    (hne : code ≠ "")
    (happ : env.approveCode channel code = Except.ok (some a))
    (hnot : httpBodyNotify (readJsonBody req.parsedBody) = true)
    (hcfg : env.config = Except.ok cfg) :
    pairingAction env req channel "approve" =
      { result := HttpResult.responded 200
          { ok := true, channel := some channel, id := some a.id,
            approved := some true },
        events := [Event.storeApprove channel code, Event.notifyReq channel a.id] } := by
  unfold pairingAction
  simp [hm, hcode, hne, happ, hnot, hcfg]

theorem pairingAction_approve_config_error (env : Collab) (req : HttpRequest)
    (channel code e : String) (a : PairingApproved)
    (hm : req.method = "POST")
    (hcode : httpBodyCode (readJsonBody req.parsedBody) = code)
    (hne : code ≠ "")
    (happ : env.approveCode channel code = Except.ok (some a))
    (hnot : httpBodyNotify (readJsonBody req.parsedBody) = true)
    (hcfg : env.config = Except.error e) :
    pairingAction env req channel "approve" =
      { result := HttpResult.responded 500 { ok := false, error := some e },
        events := [Event.storeApprove channel code] } := by
  unfold pairingAction
  simp [hm, hcode, hne, happ, hnot, hcfg]

theorem pairingAction_other (env : Collab) (req : HttpRequest)
    (channel action : String)
    (hlist : ¬(action = "list" ∧ req.method = "GET"))
    (happrove : ¬(action = "approve" ∧ req.method = "POST")) :
    pairingAction env req channel action =
      { result := HttpResult.responded 404 { ok := false, error := some "Not Found" },
        events := [] } := by
  unfold pairingAction
  rw [if_neg, if_neg]
  · intro h
    rw [Bool.and_eq_true, beq_iff_eq, beq_iff_eq] at h
    exact happrove h
  · intro h
    rw [Bool.and_eq_true, beq_iff_eq, beq_iff_eq] at h
    exact hlist h

theorem pairingAction_ne_unhandled (env : Collab) (req : HttpRequest)
    (channel action : String) :
    (pairingAction env req channel action).result ≠ HttpResult.unhandled := by
  unfold pairingAction
  rcases hl : action == "list" && req.method == "GET" with _ | _
  · rcases ha : action == "approve" && req.method == "POST" with _ | _
    · simp [hl, ha]
    · simp only [hl, ha, Bool.false_eq_true, if_false, if_true]
      rcases hc : httpBodyCode (readJsonBody req.parsedBody) == "" with _ | _
      · simp only [hc, Bool.false_eq_true, if_false]
        rcases happ : env.approveCode channel (httpBodyCode (readJsonBody req.parsedBody)) with e | o
        · simp
        · rcases o with _ | a
          · simp
          · rcases hn : httpBodyNotify (readJsonBody req.parsedBody) with _ | _
            · simp [hn]
            · simp only [hn, if_true]
              rcases hcfg : env.config with e | cfg
              · simp
              · simp
      · simp [hc]
  · simp only [hl, if_true]
    rcases hlist : env.listReqs channel with e | rs
    · simp
    · simp


/-- Claim C4: for every raw string, channel resolution first trims and
lowercases it, accepts the normalized value when it is in the registry or
matches `^[a-z][a-z0-9_-]{0,63}$`, rejects otherwise, and always returns
the normalized value; consequently "  Sms " resolves identically to
"sms" against any registry. -/
theorem resolveChannel_normalizes_and_two_tier :
    ∀ (channels : List String) (raw v : String),
      (resolveChannel channels raw = some v ↔
        (v = jsToLower (jsTrim raw) ∧
          (channels.contains v = true ∨ matchesExtensionPattern v = true))) ∧
      resolveChannel channels "  Sms " = resolveChannel channels "sms" := by
  intro channels raw v
  constructor
  · unfold resolveChannel
    by_cases hc : channels.contains (jsToLower (jsTrim raw)) = true
    · simp only [hc, if_true]
      constructor
      · intro h
        have hv : v = jsToLower (jsTrim raw) := (Option.some_inj.mp h).symm
        exact ⟨hv, Or.inl (hv ▸ hc)⟩
      · intro h
        exact congrArg some h.1.symm
    · simp only [hc]
      by_cases hp : matchesExtensionPattern (jsToLower (jsTrim raw)) = true
      · simp only [hp, if_true, if_false, Bool.false_eq_true]
        constructor
        · intro h
          have hv : v = jsToLower (jsTrim raw) := (Option.some_inj.mp h).symm
          exact ⟨hv, Or.inr (hv ▸ hp)⟩
        · intro h
          exact congrArg some h.1.symm
      · simp only [hp, if_false, Bool.false_eq_true]
        constructor
        · intro h
          exact absurd h (by simp)
        · intro h
          rcases h with ⟨hv, hcase⟩
          subst hv
          rcases hcase with h1 | h1
          · exact absurd h1 hc
          · exact absurd h1 hp
  · have h1 : jsToLower (jsTrim "  Sms ") = "sms" := by decide
    have h2 : jsToLower (jsTrim "sms") = "sms" := by decide
    unfold resolveChannel
    rw [h1, h2]

/-- Validation of approve params evaluates to true once both fields are
present strings with nonempty trim. -/
theorem validate_approve_eval (fields : List (String × JsValue))
    (channelRaw code : String)
    (hch : getStrField (JsValue.obj fields) "channel" = some channelRaw)
    (hcode : getStrField (JsValue.obj fields) "code" = some code)
    (h1 : jsTrim channelRaw ≠ "")
    (h2 : jsTrim code ≠ "") :
    validateChannelPairApproveParams (JsValue.obj fields) = true := by
  unfold validateChannelPairApproveParams
  rw [hch, hcode]
  simp [h1, h2]

/-- Claim C1 counterexample: with syntactically valid params, a
resolvable channel and a store that reports no match, the gateway adapter
responds with the invalid-request error code, not with a distinct
not-found category. -/
theorem c1_counterexample :
    (gatewayPairApprove sampleCollab (JsValue.obj
        [("channel", JsValue.str "sms"), ("code", JsValue.str "000000")])).error =
      some ⟨ErrorCode.INVALID_REQUEST,
        "no pending pairing request found for code: 000000"⟩ ∧
    ErrorCode.INVALID_REQUEST ≠ ErrorCode.NOT_FOUND := by
  constructor
  · decide
  · decide

/-- Claim C1 (amended): when the store approve operation reports no match
on well-formed input, the HTTP adapter responds with the distinct 404
not-found status, while the gateway adapter reuses the invalid-request
error code, distinguished only by its message text. -/
theorem c1_amended :
    (∀ (env : Collab) (params : JsValue) (channelRaw code channel : String),
      validateChannelPairApproveParams params = true →
      getStrField params "channel" = some channelRaw →
      getStrField params "code" = some code →
      resolveChannel env.channels channelRaw = some channel →
      env.approveCode channel code = Except.ok none →
      (gatewayPairApprove env params).ok = false ∧
      (gatewayPairApprove env params).error =
        some ⟨ErrorCode.INVALID_REQUEST,
          "no pending pairing request found for code: " ++ code⟩) ∧
    (∀ (env : Collab) (req : HttpRequest) (channelRaw channel code : String),
      strStartsWith req.pathname PAIRING_BASE_PATH = true →
      pathSegs req.pathname = [channelRaw, "approve"] →
      req.method = "POST" →
      req.localDirect = true →
      resolveChannel env.channels channelRaw = some channel →
      httpBodyCode (readJsonBody req.parsedBody) = code →
      code ≠ "" →
      env.approveCode channel code = Except.ok none →
      (handlePairingHttpRequest env req).result =
        HttpResult.responded 404
          { ok := false,
            error := some ("No pending pairing request found for code: " ++ code) }) := by
  constructor
  · intro env params channelRaw code channel hval hch hcode hres happ
    rw [gatewayPairApprove_no_match env params channelRaw code channel hval hch hcode hres happ]
    exact ⟨rfl, rfl⟩
  · intro env req channelRaw channel code hstart hsegs hm hloc hres hcode hne happ
    rw [handlePairing_route_local env req channelRaw "approve" channel hstart hsegs hres hloc,
      pairingAction_approve_no_match env req channel code hm hcode hne happ]

/-- Claim C1 witness: the amended statement applied to the sample store
with the unmatched code "000000" on both adapters. -/
theorem c1_witness :
    ((gatewayPairApprove sampleCollab (JsValue.obj
        [("channel", JsValue.str "sms"), ("code", JsValue.str "000000")])).ok = false ∧
      (gatewayPairApprove sampleCollab (JsValue.obj
        [("channel", JsValue.str "sms"), ("code", JsValue.str "000000")])).error =
        some ⟨ErrorCode.INVALID_REQUEST,
          "no pending pairing request found for code: " ++ "000000"⟩) ∧
    (handlePairingHttpRequest sampleCollab
        { pathname := "/api/pairing/sms/approve", method := "POST",
          parsedBody := some (JsValue.obj [("code", JsValue.str "000000")]),
          localDirect := true, bearer := none }).result =
      HttpResult.responded 404
        { ok := false,
          error := some ("No pending pairing request found for code: " ++ "000000") } :=
  ⟨c1_amended.1 sampleCollab
      (JsValue.obj [("channel", JsValue.str "sms"), ("code", JsValue.str "000000")])
      "sms" "000000" "sms" (by decide) (by decide) (by decide) (by decide) rfl,
   c1_amended.2 sampleCollab
      { pathname := "/api/pairing/sms/approve", method := "POST",
        parsedBody := some (JsValue.obj [("code", JsValue.str "000000")]),
        localDirect := true, bearer := none }
      "sms" "sms" "000000" (by decide) (by decide) rfl rfl (by decide) rfl
      (by decide) rfl⟩

/-- Claim C2 counterexample: with the same supplied code string " 123 "
the gateway adapter passes it to the store verbatim while the HTTP
adapter passes it trimmed, and with the same truthy non-boolean notify
value "yes" the gateway adapter invokes the notifier while the HTTP
adapter does not. -/
theorem c2_counterexample :
    (storeApproveArgs (gatewayPairApprove sampleCollab (JsValue.obj
        [("channel", JsValue.str "sms"), ("code", JsValue.str " 123 ")])).events =
        [("sms", " 123 ")] ∧
      storeApproveArgs (handlePairingHttpRequest sampleCollab
        { pathname := "/api/pairing/sms/approve", method := "POST",
          parsedBody := some (JsValue.obj [("code", JsValue.str " 123 ")]),
          localDirect := true, bearer := none }).events = [("sms", "123")]) ∧
    (notifyArgs (gatewayPairApprove sampleCollab (JsValue.obj
        [("channel", JsValue.str "sms"), ("code", JsValue.str "123"),
          ("notify", JsValue.str "yes")])).events = [("sms", "req_1")] ∧
      notifyArgs (handlePairingHttpRequest sampleCollab
        { pathname := "/api/pairing/sms/approve", method := "POST",
          parsedBody := some (JsValue.obj [("code", JsValue.str "123"),
            ("notify", JsValue.str "yes")]),
          localDirect := true, bearer := none }).events = []) := by
  refine ⟨⟨?_, ?_⟩, ?_, ?_⟩ <;> decide

/-- Claim C2 (amended): when the supplied code equals its trimmed form
and the notify flag is absent or an actual boolean, the two adapters
invoke the store approve operation with identical arguments and invoke or
skip the notifier under identical conditions. -/
theorem c2_amended :
    ∀ (env : Collab) (req : HttpRequest) (channelRaw code channel : String)
      (notifyFields : List (String × JsValue)),
      (notifyFields = [] ∨ ∃ b, notifyFields = [("notify", JsValue.bool b)]) →
      req.method = "POST" →
      strStartsWith req.pathname PAIRING_BASE_PATH = true →
      pathSegs req.pathname = [channelRaw, "approve"] →
      req.localDirect = true →
      req.parsedBody = some (JsValue.obj (("code", JsValue.str code) :: notifyFields)) →
      jsTrim channelRaw ≠ "" →
      jsTrim code = code →
      code ≠ "" →
      resolveChannel env.channels channelRaw = some channel →
      storeApproveArgs (gatewayPairApprove env
          (JsValue.obj (("channel", JsValue.str channelRaw) ::
            ("code", JsValue.str code) :: notifyFields))).events =
        storeApproveArgs (handlePairingHttpRequest env req).events ∧
      notifyArgs (gatewayPairApprove env
          (JsValue.obj (("channel", JsValue.str channelRaw) ::
            ("code", JsValue.str code) :: notifyFields))).events =
        notifyArgs (handlePairingHttpRequest env req).events := by
  intro env req channelRaw code channel notifyFields hnf hm hstart hsegs hloc hbody
    hcht hctrim hcne hres
  have hch : getStrField (JsValue.obj (("channel", JsValue.str channelRaw) ::
      ("code", JsValue.str code) :: notifyFields)) "channel" = some channelRaw := by
    simp [getStrField, getField, List.lookup]
  have hcode : getStrField (JsValue.obj (("channel", JsValue.str channelRaw) ::
      ("code", JsValue.str code) :: notifyFields)) "code" = some code := by
    simp [getStrField, getField, List.lookup]
  have hctne : jsTrim code ≠ "" := by rw [hctrim]; exact hcne
  have hval := validate_approve_eval _ channelRaw code hch hcode hcht hctne
  have hhcode : httpBodyCode (readJsonBody req.parsedBody) = code := by
    rw [hbody]
    simp [readJsonBody, httpBodyCode, getStrField, getField, List.lookup, hctrim]
  have hroute := handlePairing_route_local env req channelRaw "approve" channel
    hstart hsegs hres hloc
  rcases hnf with hnf | ⟨b, hnf⟩
  · subst hnf
    have hgnot : jsTruthy (getField (JsValue.obj [("channel", JsValue.str channelRaw),
        ("code", JsValue.str code)]) "notify") = false := by
      simp [getField, List.lookup, jsTruthy]
    have hhnot : httpBodyNotify (readJsonBody req.parsedBody) = false := by
      rw [hbody]
      simp [readJsonBody, httpBodyNotify, getField, List.lookup]
    rcases happ : env.approveCode channel code with e | o
    · rw [gatewayPairApprove_store_error env _ channelRaw code channel e
          hval hch hcode hres happ, hroute,
        pairingAction_approve_store_error env req channel code e hm hhcode hcne happ]
      exact ⟨rfl, rfl⟩
    · rcases o with _ | a
      · rw [gatewayPairApprove_no_match env _ channelRaw code channel
            hval hch hcode hres happ, hroute,
          pairingAction_approve_no_match env req channel code hm hhcode hcne happ]
        exact ⟨rfl, rfl⟩
      · rw [gatewayPairApprove_match_notify_off env _ channelRaw code channel a
            hval hch hcode hres happ hgnot, hroute,
          pairingAction_approve_notify_off env req channel code a hm hhcode hcne happ hhnot]
        exact ⟨rfl, rfl⟩
  · subst hnf
    have hgnot : jsTruthy (getField (JsValue.obj [("channel", JsValue.str channelRaw),
        ("code", JsValue.str code), ("notify", JsValue.bool b)]) "notify") = b := by
      simp [getField, List.lookup, jsTruthy]
    have hhnot : httpBodyNotify (readJsonBody req.parsedBody) = b := by
      rw [hbody]
      cases b
      · simp [readJsonBody, httpBodyNotify, getField, List.lookup]
      · simp [readJsonBody, httpBodyNotify, getField, List.lookup]
    rcases happ : env.approveCode channel code with e | o
    · rw [gatewayPairApprove_store_error env _ channelRaw code channel e
          hval hch hcode hres happ, hroute,
        pairingAction_approve_store_error env req channel code e hm hhcode hcne happ]
      exact ⟨rfl, rfl⟩
    · rcases o with _ | a
      · rw [gatewayPairApprove_no_match env _ channelRaw code channel
            hval hch hcode hres happ, hroute,
          pairingAction_approve_no_match env req channel code hm hhcode hcne happ]
        exact ⟨rfl, rfl⟩
      · rcases b with _ | _
        · rw [gatewayPairApprove_match_notify_off env _ channelRaw code channel a
              hval hch hcode hres happ hgnot, hroute,
            pairingAction_approve_notify_off env req channel code a hm hhcode hcne happ
              hhnot]
          exact ⟨rfl, rfl⟩
        · rcases hcfg : env.config with e | cfg
          · rw [gatewayPairApprove_match_config_error env _ channelRaw code channel a e
                hval hch hcode hres happ hgnot hcfg, hroute,
              pairingAction_approve_config_error env req channel code e a hm hhcode hcne
                happ hhnot hcfg]
            exact ⟨rfl, rfl⟩
          · rw [gatewayPairApprove_match_notify_on env _ channelRaw code channel a cfg
                hval hch hcode hres happ hgnot hcfg, hroute,
              pairingAction_approve_notify_on env req channel code a cfg hm hhcode hcne
                happ hhnot hcfg]
            exact ⟨rfl, rfl⟩

/-- Claim C2 witness: the amended statement applied to the sample store
with the trimmed code "123" and the boolean notify flag true on both
adapters. -/
theorem c2_witness :
    storeApproveArgs (gatewayPairApprove sampleCollab
        (JsValue.obj [("channel", JsValue.str "sms"), ("code", JsValue.str "123"),
          ("notify", JsValue.bool true)])).events =
      storeApproveArgs (handlePairingHttpRequest sampleCollab
        { pathname := "/api/pairing/sms/approve", method := "POST",
          parsedBody := some (JsValue.obj [("code", JsValue.str "123"),
            ("notify", JsValue.bool true)]),
          localDirect := true, bearer := none }).events ∧
    notifyArgs (gatewayPairApprove sampleCollab
        (JsValue.obj [("channel", JsValue.str "sms"), ("code", JsValue.str "123"),
          ("notify", JsValue.bool true)])).events =
      notifyArgs (handlePairingHttpRequest sampleCollab
        { pathname := "/api/pairing/sms/approve", method := "POST",
          parsedBody := some (JsValue.obj [("code", JsValue.str "123"),
            ("notify", JsValue.bool true)]),
          localDirect := true, bearer := none }).events :=
  c2_amended sampleCollab
    { pathname := "/api/pairing/sms/approve", method := "POST",
      parsedBody := some (JsValue.obj [("code", JsValue.str "123"),
        ("notify", JsValue.bool true)]),
      localDirect := true, bearer := none }
    "sms" "123" "sms" [("notify", JsValue.bool true)]
    (Or.inr ⟨true, rfl⟩) rfl (by decide) (by decide) rfl rfl
    (by decide) (by decide) (by decide) (by decide)


/-- Elimination form of approve-params validation: both fields are
present strings with nonempty trim. -/
theorem validate_approve_elim (params : JsValue)
    (h : validateChannelPairApproveParams params = true) :
    ∃ channelRaw code, getStrField params "channel" = some channelRaw ∧
      getStrField params "code" = some code ∧
      jsTrim channelRaw ≠ "" ∧ jsTrim code ≠ "" := by
  rcases params with _ | b | n | s | fields <;>
    simp [validateChannelPairApproveParams] at h
  rcases hch : getStrField (JsValue.obj fields) "channel" with _ | c <;> rw [hch] at h
  · simp at h
  · rcases hcode : getStrField (JsValue.obj fields) "code" with _ | k <;> rw [hcode] at h
    · simp at h
    · simp only [Bool.and_eq_true, bne_iff_ne, ne_eq] at h
      exact ⟨c, k, rfl, rfl, h.1, h.2⟩

/-- Master case split of the HTTP handler: every invocation is unhandled,
one of the three pre-action responses, an authorization-engine throw, or
a dispatch to `pairingAction`. -/
theorem handlePairing_cases (env : Collab) (req : HttpRequest) :
    handlePairingHttpRequest env req = { result := HttpResult.unhandled, events := [] } ∨
    handlePairingHttpRequest env req =
      { result := HttpResult.responded 404 { ok := false, error := some "Not Found" },
        events := [] } ∨
    (∃ channelRaw action, pathSegs req.pathname = [channelRaw, action] ∧
      resolveChannel env.channels channelRaw = none ∧
      handlePairingHttpRequest env req =
        { result := HttpResult.responded 400
            { ok := false, error := some ("Invalid channel: " ++ channelRaw) },
          events := [] }) ∨
    handlePairingHttpRequest env req =
      { result := HttpResult.responded 401 { ok := false, error := some "Unauthorized" },
        events := [] } ∨
    (∃ token e, req.localDirect = false ∧ req.bearer = some token ∧
      env.authorize token = Except.error e ∧
      handlePairingHttpRequest env req = { result := HttpResult.threw e, events := [] }) ∨
    (∃ channelRaw action channel, pathSegs req.pathname = [channelRaw, action] ∧
      resolveChannel env.channels channelRaw = some channel ∧
      handlePairingHttpRequest env req = pairingAction env req channel action) := by
  rcases hstart : strStartsWith req.pathname PAIRING_BASE_PATH with _ | _
  · exact Or.inl (handlePairing_unhandled env req hstart)
  · rcases hsegs : pathSegs req.pathname with _ | ⟨a, _ | ⟨b, _ | ⟨c, rest⟩⟩⟩
    · exact Or.inr (Or.inl (handlePairing_bad_shape env req hstart (by rw [hsegs]; simp)))
    · exact Or.inr (Or.inl (handlePairing_bad_shape env req hstart (by rw [hsegs]; simp)))
    · rcases hres : resolveChannel env.channels a with _ | channel
      · exact Or.inr (Or.inr (Or.inl ⟨a, b, rfl,
          hres, handlePairing_invalid_channel env req a b hstart hsegs hres⟩))
      · rcases hloc : req.localDirect with _ | _
        · rcases hbear : req.bearer with _ | token
          · exact Or.inr (Or.inr (Or.inr (Or.inl
              (handlePairing_unauthorized env req a b channel hstart hsegs hres hloc
                (Or.inl hbear)))))
          · rcases hauth : env.authorize token with e | ok
            · exact Or.inr (Or.inr (Or.inr (Or.inr (Or.inl ⟨token, e, rfl, rfl, hauth,
                handlePairing_auth_threw env req a b channel token e
                  hstart hsegs hres hloc hbear hauth⟩))))
            · rcases ok with _ | _
              · exact Or.inr (Or.inr (Or.inr (Or.inl
                  (handlePairing_unauthorized env req a b channel hstart hsegs hres hloc
                    (Or.inr ⟨token, hbear, hauth⟩)))))
              · exact Or.inr (Or.inr (Or.inr (Or.inr (Or.inr ⟨a, b, channel, rfl, hres,
                  handlePairing_route_token env req a b channel token
                    hstart hsegs hres hloc hbear hauth⟩))))
        · exact Or.inr (Or.inr (Or.inr (Or.inr (Or.inr ⟨a, b, channel, rfl, hres,
            handlePairing_route_local env req a b channel hstart hsegs hres hloc⟩))))
    · refine Or.inr (Or.inl (handlePairing_bad_shape env req hstart ?_))
      rw [hsegs]
      simp

/-- The action dispatch never records a notifier call when the body
notify flag is not strictly true. -/
theorem pairingAction_notifyArgs_empty (env : Collab) (req : HttpRequest)
    (channel action : String)
    (h : httpBodyNotify (readJsonBody req.parsedBody) = false) :
    notifyArgs (pairingAction env req channel action).events = [] := by
  unfold pairingAction
  rcases hl : action == "list" && req.method == "GET" with _ | _
  · rcases ha : action == "approve" && req.method == "POST" with _ | _
    · simp [hl, ha, notifyArgs]
    · simp only [hl, ha, Bool.false_eq_true, if_false, if_true]
      rcases hc : httpBodyCode (readJsonBody req.parsedBody) == "" with _ | _
      · simp only [hc, Bool.false_eq_true, if_false]
        rcases happ : env.approveCode channel (httpBodyCode (readJsonBody req.parsedBody))
          with e | o
        · simp [notifyArgs]
        · rcases o with _ | a
          · simp [notifyArgs]
          · simp [h, notifyArgs]
      · simp [hc, notifyArgs]
  · simp only [hl, if_true]
    rcases hlist : env.listReqs channel with e | rs <;> simp [notifyArgs]

/-- The action dispatch never emits a broadcast event. -/
theorem pairingAction_no_broadcast (env : Collab) (req : HttpRequest)
    (channel action : String) :
    broadcastEvents (pairingAction env req channel action).events = [] := by
  unfold pairingAction
  rcases hl : action == "list" && req.method == "GET" with _ | _
  · rcases ha : action == "approve" && req.method == "POST" with _ | _
    · simp [hl, ha, broadcastEvents]
    · simp only [hl, ha, Bool.false_eq_true, if_false, if_true]
      rcases hc : httpBodyCode (readJsonBody req.parsedBody) == "" with _ | _
      · simp only [hc, Bool.false_eq_true, if_false]
        rcases happ : env.approveCode channel (httpBodyCode (readJsonBody req.parsedBody))
          with e | o
        · simp [broadcastEvents]
        · rcases o with _ | a
          · simp [broadcastEvents]
          · rcases hn : httpBodyNotify (readJsonBody req.parsedBody) with _ | _
            · simp [hn, broadcastEvents]
            · simp only [hn, if_true]
              rcases hcfg : env.config with e | cfg <;> simp [broadcastEvents]
      · simp [hc, broadcastEvents]
  · simp only [hl, if_true]
    rcases hlist : env.listReqs channel with e | rs <;> simp [broadcastEvents]

/-- The gateway approve handler never records a notifier call when the
notify param is falsy. -/
theorem gateway_notifyArgs_empty (env : Collab) (params : JsValue)
    (h : jsTruthy (getField params "notify") = false) :
    notifyArgs (gatewayPairApprove env params).events = [] := by
  unfold gatewayPairApprove
  rcases hval : validateChannelPairApproveParams params with _ | _
  · simp [hval, notifyArgs]
  · simp only [hval, if_true]
    rcases hres : resolveChannel env.channels ((getStrField params "channel").getD "")
      with _ | channel
    · simp [hres, notifyArgs]
    · simp only [hres]
      rcases happ : env.approveCode channel ((getStrField params "code").getD "")
        with e | o
      · simp [happ, notifyArgs]
      · rcases o with _ | a
        · simp [happ, notifyArgs]
        · simp [happ, h, notifyArgs]


/-- Claim C3 counterexample: a request that is neither local-direct nor
carries any bearer token but has an unresolvable channel receives the 400
invalid-channel response, not the 401 unauthorized response — channel
resolution runs before the authorization gate. -/
theorem c3_counterexample :
    handlePairingHttpRequest sampleCollab
      { pathname := "/api/pairing/XYZ!/approve", method := "POST",
        parsedBody := none, localDirect := false, bearer := none } =
      { result := HttpResult.responded 400
          { ok := false, error := some "Invalid channel: XYZ!" },
        events := [] } := by
  decide

/-- Claim C3 (amended): authorization is checked after path shape and
channel resolution but before the action logic: every request whose path
has two segments and whose channel resolves, and which is neither
local-direct nor carries a bearer token the authorization engine accepts,
receives 401 with no store or notifier call. -/
theorem c3_amended :
    ∀ (env : Collab) (req : HttpRequest) (channelRaw action channel : String),
      strStartsWith req.pathname PAIRING_BASE_PATH = true →
      pathSegs req.pathname = [channelRaw, action] →
      resolveChannel env.channels channelRaw = some channel →
      req.localDirect = false →
      (req.bearer = none ∨
        ∃ token, req.bearer = some token ∧ env.authorize token = Except.ok false) →
      handlePairingHttpRequest env req =
        { result := HttpResult.responded 401
            { ok := false, error := some "Unauthorized" },
          events := [] } := by
  intro env req channelRaw action channel hstart hsegs hres hloc hcred
  exact handlePairing_unauthorized env req channelRaw action channel
    hstart hsegs hres hloc hcred

/-- Claim C3 witness: the amended statement applied to a non-local
request without credentials for the resolvable channel "sms". -/
theorem c3_witness :
    handlePairingHttpRequest sampleCollab
      { pathname := "/api/pairing/sms/list", method := "GET",
        parsedBody := none, localDirect := false, bearer := none } =
      { result := HttpResult.responded 401
          { ok := false, error := some "Unauthorized" },
        events := [] } :=
  c3_amended sampleCollab
    { pathname := "/api/pairing/sms/list", method := "GET",
      parsedBody := none, localDirect := false, bearer := none }
    "sms" "list" "sms" (by decide) (by decide) (by decide) rfl (Or.inl rfl)

/-- Claim C5: on both adapters an approve with notify false or absent
never invokes the notifier, and an approve with notify true whose store
call matches still reports success and the full success payload when the
notifier fails. -/
theorem c5_notify_semantics :
    (∀ (env : Collab) (params : JsValue),
      (getField params "notify" = none ∨
        getField params "notify" = some (JsValue.bool false)) →
      notifyArgs (gatewayPairApprove env params).events = []) ∧
    (∀ (env : Collab) (req : HttpRequest),
      ((readJsonBody req.parsedBody).bind (fun b => getField b "notify") = none ∨
        (readJsonBody req.parsedBody).bind (fun b => getField b "notify") =
          some (JsValue.bool false)) →
      notifyArgs (handlePairingHttpRequest env req).events = []) ∧
    (∀ (env : Collab) (params : JsValue) (channelRaw code channel : String)
        (a : PairingApproved) (cfg : Config) (msg : String),
      validateChannelPairApproveParams params = true →
      getStrField params "channel" = some channelRaw →
      getStrField params "code" = some code →
      resolveChannel env.channels channelRaw = some channel →
      env.approveCode channel code = Except.ok (some a) →
      getField params "notify" = some (JsValue.bool true) →
      env.config = Except.ok cfg →
      env.notifyApproved channel a.id cfg = Except.error msg →
      (gatewayPairApprove env params).ok = true ∧
      (gatewayPairApprove env params).payload =
        some { channel := channel, id := some a.id, approved := some true } ∧
      notifyArgs (gatewayPairApprove env params).events = [(channel, a.id)]) ∧
    (∀ (env : Collab) (req : HttpRequest) (channelRaw code channel : String)
        (a : PairingApproved) (cfg : Config) (msg : String),
      strStartsWith req.pathname PAIRING_BASE_PATH = true →
      pathSegs req.pathname = [channelRaw, "approve"] →
      req.method = "POST" →
      req.localDirect = true →
      resolveChannel env.channels channelRaw = some channel →
      httpBodyCode (readJsonBody req.parsedBody) = code →
      code ≠ "" →
      env.approveCode channel code = Except.ok (some a) →
      httpBodyNotify (readJsonBody req.parsedBody) = true →
      env.config = Except.ok cfg →
      env.notifyApproved channel a.id cfg = Except.error msg →
      (handlePairingHttpRequest env req).result =
        HttpResult.responded 200
          { ok := true, channel := some channel, id := some a.id,
            approved := some true } ∧
      notifyArgs (handlePairingHttpRequest env req).events = [(channel, a.id)]) := by
  refine ⟨?_, ?_, ?_, ?_⟩
  · intro env params h
    apply gateway_notifyArgs_empty
    rcases h with h | h <;> rw [h] <;> rfl
  · intro env req h
    have hb : httpBodyNotify (readJsonBody req.parsedBody) = false := by
      unfold httpBodyNotify
      rcases h with h | h <;> rw [h]
    rcases handlePairing_cases env req with h1 | h1 | ⟨cr, ac, _, _, h1⟩ | h1 |
        ⟨t, e, _, _, _, h1⟩ | ⟨cr, ac, ch, _, _, h1⟩ <;> rw [h1]
    · rfl
    · rfl
    · rfl
    · rfl
    · rfl
    · exact pairingAction_notifyArgs_empty env req ch ac hb
  · intro env params channelRaw code channel a cfg msg
      hval hch hcode hres happ hnot hcfg hfail
    have hgnot : jsTruthy (getField params "notify") = true := by rw [hnot]; rfl
    rw [gatewayPairApprove_match_notify_on env params channelRaw code channel a cfg
      hval hch hcode hres happ hgnot hcfg]
    exact ⟨rfl, rfl, rfl⟩
  · intro env req channelRaw code channel a cfg msg
      hstart hsegs hm hloc hres hhcode hcne happ hhnot hcfg hfail
    rw [handlePairing_route_local env req channelRaw "approve" channel
        hstart hsegs hres hloc,
      pairingAction_approve_notify_on env req channel code a cfg
        hm hhcode hcne happ hhnot hcfg]
    exact ⟨rfl, rfl⟩

/-- Claim C5 witness: the four conjuncts applied to the sample
collaborators, whose notifier always fails, with notify absent, notify
false, and notify true on both adapters. -/
theorem c5_witness :
    notifyArgs (gatewayPairApprove sampleCollab (JsValue.obj
      [("channel", JsValue.str "sms"), ("code", JsValue.str "123")])).events = [] ∧
    notifyArgs (handlePairingHttpRequest sampleCollab
      { pathname := "/api/pairing/sms/approve", method := "POST",
        parsedBody := some (JsValue.obj [("code", JsValue.str "123"),
          ("notify", JsValue.bool false)]),
        localDirect := true, bearer := none }).events = [] ∧
    ((gatewayPairApprove sampleCollab (JsValue.obj
        [("channel", JsValue.str "sms"), ("code", JsValue.str "123"),
          ("notify", JsValue.bool true)])).ok = true ∧
      (gatewayPairApprove sampleCollab (JsValue.obj
        [("channel", JsValue.str "sms"), ("code", JsValue.str "123"),
          ("notify", JsValue.bool true)])).payload =
        some { channel := "sms", id := some "req_1", approved := some true } ∧
      notifyArgs (gatewayPairApprove sampleCollab (JsValue.obj
        [("channel", JsValue.str "sms"), ("code", JsValue.str "123"),
          ("notify", JsValue.bool true)])).events = [("sms", "req_1")]) ∧
    ((handlePairingHttpRequest sampleCollab
        { pathname := "/api/pairing/sms/approve", method := "POST",
          parsedBody := some (JsValue.obj [("code", JsValue.str "123"),
            ("notify", JsValue.bool true)]),
          localDirect := true, bearer := none }).result =
      HttpResult.responded 200
        { ok := true, channel := some "sms", id := some "req_1",
          approved := some true } ∧
      notifyArgs (handlePairingHttpRequest sampleCollab
        { pathname := "/api/pairing/sms/approve", method := "POST",
          parsedBody := some (JsValue.obj [("code", JsValue.str "123"),
            ("notify", JsValue.bool true)]),
          localDirect := true, bearer := none }).events = [("sms", "req_1")]) :=
  ⟨c5_notify_semantics.1 sampleCollab
      (JsValue.obj [("channel", JsValue.str "sms"), ("code", JsValue.str "123")])
      (Or.inl rfl),
   c5_notify_semantics.2.1 sampleCollab
      { pathname := "/api/pairing/sms/approve", method := "POST",
        parsedBody := some (JsValue.obj [("code", JsValue.str "123"),
          ("notify", JsValue.bool false)]),
        localDirect := true, bearer := none }
      (Or.inr rfl),
   c5_notify_semantics.2.2.1 sampleCollab
      (JsValue.obj [("channel", JsValue.str "sms"), ("code", JsValue.str "123"),
        ("notify", JsValue.bool true)])
      "sms" "123" "sms" { id := "req_1" } {} "notify failed"
      (by decide) (by decide) (by decide) (by decide) rfl rfl rfl rfl,
   c5_notify_semantics.2.2.2 sampleCollab
      { pathname := "/api/pairing/sms/approve", method := "POST",
        parsedBody := some (JsValue.obj [("code", JsValue.str "123"),
          ("notify", JsValue.bool true)]),
        localDirect := true, bearer := none }
      "sms" "123" "sms" { id := "req_1" } {} "notify failed"
      (by decide) (by decide) rfl rfl (by decide) rfl (by decide) rfl rfl rfl rfl⟩


/-- Claim C6: the gateway adapter emits the channel.pair.resolved
broadcast exactly when the store approve operation returns a match, with
the resolved channel, the store-returned id, decision "approved" and the
current timestamp as payload; the HTTP adapter never emits a broadcast. -/
theorem c6_broadcast_exactness :
    (∀ (env : Collab) (params : JsValue) (channelRaw code channel : String)
        (a : PairingApproved),
      validateChannelPairApproveParams params = true →
      getStrField params "channel" = some channelRaw →
      getStrField params "code" = some code →
      resolveChannel env.channels channelRaw = some channel →
      env.approveCode channel code = Except.ok (some a) →
      broadcastEvents (gatewayPairApprove env params).events =
        [Event.broadcast "channel.pair.resolved" channel a.id "approved" env.now]) ∧
    (∀ (env : Collab) (params : JsValue),
      broadcastEvents (gatewayPairApprove env params).events ≠ [] →
      ∃ channelRaw code channel a,
        validateChannelPairApproveParams params = true ∧
        getStrField params "channel" = some channelRaw ∧
        getStrField params "code" = some code ∧
        resolveChannel env.channels channelRaw = some channel ∧
        env.approveCode channel code = Except.ok (some a)) ∧
    (∀ (env : Collab) (req : HttpRequest),
      broadcastEvents (handlePairingHttpRequest env req).events = []) := by
  refine ⟨?_, ?_, ?_⟩
  · intro env params channelRaw code channel a hval hch hcode hres happ
    rcases hnot : jsTruthy (getField params "notify") with _ | _
    · rw [gatewayPairApprove_match_notify_off env params channelRaw code channel a
        hval hch hcode hres happ hnot]
      rfl
    · rcases hcfg : env.config with e | cfg
      · rw [gatewayPairApprove_match_config_error env params channelRaw code channel a e
          hval hch hcode hres happ hnot hcfg]
        rfl
      · rw [gatewayPairApprove_match_notify_on env params channelRaw code channel a cfg
          hval hch hcode hres happ hnot hcfg]
        rfl
  · intro env params hne
    rcases hval : validateChannelPairApproveParams params with _ | _
    · exfalso
      apply hne
      rw [gatewayPairApprove_invalid_params env params hval]
      rfl
    · obtain ⟨channelRaw, code, hch, hcode, h1, h2⟩ := validate_approve_elim params hval
      rcases hres : resolveChannel env.channels channelRaw with _ | channel
      · exfalso
        apply hne
        rw [gatewayPairApprove_invalid_channel env params channelRaw hval hch hres]
        rfl
      · rcases happ : env.approveCode channel code with e | o
        · exfalso
          apply hne
          rw [gatewayPairApprove_store_error env params channelRaw code channel e
            hval hch hcode hres happ]
          rfl
        · rcases o with _ | a
          · exfalso
            apply hne
            rw [gatewayPairApprove_no_match env params channelRaw code channel
              hval hch hcode hres happ]
            rfl
          · exact ⟨channelRaw, code, channel, a, rfl, hch, hcode, hres, happ⟩
  · intro env req
    rcases handlePairing_cases env req with h1 | h1 | ⟨cr, ac, _, _, h1⟩ | h1 |
        ⟨t, e, _, _, _, h1⟩ | ⟨cr, ac, ch, _, _, h1⟩ <;> rw [h1]
    · rfl
    · rfl
    · rfl
    · rfl
    · rfl
    · exact pairingAction_no_broadcast env req ch ac

/-- Claim C6 witness: on the sample store, a matched gateway approve
emits exactly one broadcast with channel "sms", id "req_1", decision
"approved" and timestamp 42, and that nonempty broadcast trace certifies
that the store match occurred. -/
theorem c6_witness :
    broadcastEvents (gatewayPairApprove sampleCollab (JsValue.obj
        [("channel", JsValue.str "sms"), ("code", JsValue.str "123")])).events =
      [Event.broadcast "channel.pair.resolved" "sms" "req_1" "approved" 42] ∧
    (∃ channelRaw code channel a,
      validateChannelPairApproveParams (JsValue.obj
        [("channel", JsValue.str "sms"), ("code", JsValue.str "123")]) = true ∧
      getStrField (JsValue.obj
        [("channel", JsValue.str "sms"), ("code", JsValue.str "123")]) "channel" =
        some channelRaw ∧
      getStrField (JsValue.obj
        [("channel", JsValue.str "sms"), ("code", JsValue.str "123")]) "code" =
        some code ∧
      resolveChannel sampleCollab.channels channelRaw = some channel ∧
      sampleCollab.approveCode channel code = Except.ok (some a)) :=
  ⟨c6_broadcast_exactness.1 sampleCollab
      (JsValue.obj [("channel", JsValue.str "sms"), ("code", JsValue.str "123")])
      "sms" "123" "sms" { id := "req_1" }
      (by decide) (by decide) (by decide) (by decide) rfl,
   c6_broadcast_exactness.2.1 sampleCollab
      (JsValue.obj [("channel", JsValue.str "sms"), ("code", JsValue.str "123")])
      (by decide)⟩


/-- Elimination form of list-params validation. -/
theorem validate_list_elim (params : JsValue)
    (h : validateChannelPairListParams params = true) :
    ∃ channelRaw, getStrField params "channel" = some channelRaw ∧
      jsTrim channelRaw ≠ "" := by
  rcases params with _ | b | n | s | fields <;>
    simp [validateChannelPairListParams] at h
  rcases hch : getStrField (JsValue.obj fields) "channel" with _ | c <;> rw [hch] at h
  · simp at h
  · simp only [bne_iff_ne, ne_eq] at h
    exact ⟨c, rfl, h⟩

/-- Routing through the authorization gate under `authPassed`. -/
theorem handlePairing_route_auth (env : Collab) (req : HttpRequest)
    (channelRaw action channel : String)
    (hstart : strStartsWith req.pathname PAIRING_BASE_PATH = true)
    (hsegs : pathSegs req.pathname = [channelRaw, action])
    (hres : resolveChannel env.channels channelRaw = some channel)
    (hauth : authPassed env req) :
    handlePairingHttpRequest env req = pairingAction env req channel action := by
  rcases hauth with hloc | ⟨token, hloc, hbear, hok⟩
  · exact handlePairing_route_local env req channelRaw action channel
      hstart hsegs hres hloc
  · exact handlePairing_route_token env req channelRaw action channel token
      hstart hsegs hres hloc hbear hok

/-- The action dispatch never throws. -/
theorem pairingAction_ne_threw (env : Collab) (req : HttpRequest)
    (channel action e : String) :
    (pairingAction env req channel action).result ≠ HttpResult.threw e := by
  unfold pairingAction
  rcases hl : action == "list" && req.method == "GET" with _ | _
  · rcases ha : action == "approve" && req.method == "POST" with _ | _
    · simp [hl, ha]
    · simp only [hl, ha, Bool.false_eq_true, if_false, if_true]
      rcases hc : httpBodyCode (readJsonBody req.parsedBody) == "" with _ | _
      · simp only [hc, Bool.false_eq_true, if_false]
        rcases happ : env.approveCode channel (httpBodyCode (readJsonBody req.parsedBody))
          with e | o
        · simp
        · rcases o with _ | a
          · simp
          · rcases hn : httpBodyNotify (readJsonBody req.parsedBody) with _ | _
            · simp [hn]
            · simp only [hn, if_true]
              rcases hcfg : env.config with e | cfg <;> simp
      · simp [hc]
  · simp only [hl, if_true]
    rcases hlist : env.listReqs channel with e | rs <;> simp

/-- Once the approve route is taken with a nonempty extracted code, the
store approve operation is called exactly once with the resolved channel
and that code, in every store/notifier/config outcome. -/
theorem pairingAction_approve_store_called (env : Collab) (req : HttpRequest)
    (channel code : String)
    (hm : req.method = "POST")
    (hcode : httpBodyCode (readJsonBody req.parsedBody) = code)
    (hne : code ≠ "") :
    storeApproveArgs (pairingAction env req channel "approve").events =
      [(channel, code)] := by
  unfold pairingAction
  rw [hm]
  simp only [show ("approve" == "list" && ("POST" : String) == "GET") = false from rfl,
    show ("approve" == "approve" && ("POST" : String) == "POST") = true from rfl,
    Bool.false_eq_true, if_false, if_true]
  rw [hcode]
  simp only [beq_iff_eq, if_neg hne]
  rcases happ : env.approveCode channel code with e | o
  · rfl
  · rcases o with _ | a
    · rfl
    · rcases hn : httpBodyNotify (readJsonBody req.parsedBody) with _ | _
      · simp only [hn, Bool.false_eq_true, if_false]
        rfl
      · simp only [hn, if_true]
        rcases hcfg : env.config with e | cfg
        · rfl
        · rfl

/-- The channel string "sms" resolves to itself against any registry:
either it is registered, or it matches the extension pattern. -/
theorem resolveChannel_sms (channels : List String) :
    resolveChannel channels "sms" = some "sms" := by
  have hv : jsToLower (jsTrim "sms") = "sms" := by decide
  unfold resolveChannel
  rw [hv]
  rcases hc : channels.contains "sms" with _ | _
  · have hm : matchesExtensionPattern "sms" = true := by decide
    simp only [hc, Bool.false_eq_true, if_false, hm, if_true]
  · simp only [hc, if_true]


/-- Claim C7 counterexample: a non-local request without credentials
whose approve body has no code — an input failing parameter validation —
receives the 401 unauthorized response, not an invalid-request error,
because the HTTP authorization gate answers first (the store is still
never called). -/
theorem c7_counterexample :
    httpBodyCode (readJsonBody (some (JsValue.obj []))) = "" ∧
    handlePairingHttpRequest sampleCollab
      { pathname := "/api/pairing/sms/approve", method := "POST",
        parsedBody := some (JsValue.obj []), localDirect := false, bearer := none } =
      { result := HttpResult.responded 401
          { ok := false, error := some "Unauthorized" },
        events := [] } := by
  constructor
  · rfl
  · decide

/-- Claim C7 (amended): every gateway input failing params validation or
channel resolution, and every HTTP input failing channel resolution,
yields an invalid-request error with no store or notifier call; an HTTP
approve input with an empty extracted code yields the invalid-request
response with no store or notifier call provided the request passed the
authorization gate. -/
theorem c7_amended :
    (∀ (env : Collab) (params : JsValue),
      validateChannelPairListParams params = false →
      (gatewayPairList env params).error =
        some ⟨ErrorCode.INVALID_REQUEST,
          "invalid channel.pair.list params: channel (string) required"⟩ ∧
      (gatewayPairList env params).events = []) ∧
    (∀ (env : Collab) (params : JsValue) (channelRaw : String),
      validateChannelPairListParams params = true →
      getStrField params "channel" = some channelRaw →
      resolveChannel env.channels channelRaw = none →
      (gatewayPairList env params).error =
        some ⟨ErrorCode.INVALID_REQUEST, "invalid channel: " ++ channelRaw⟩ ∧
      (gatewayPairList env params).events = []) ∧
    (∀ (env : Collab) (params : JsValue),
      validateChannelPairApproveParams params = false →
      (gatewayPairApprove env params).error =
        some ⟨ErrorCode.INVALID_REQUEST,
          "invalid channel.pair.approve params: channel (string) and code (string) required"⟩ ∧
      (gatewayPairApprove env params).events = []) ∧
    (∀ (env : Collab) (params : JsValue) (channelRaw : String),
      validateChannelPairApproveParams params = true →
      getStrField params "channel" = some channelRaw →
      resolveChannel env.channels channelRaw = none →
      (gatewayPairApprove env params).error =
        some ⟨ErrorCode.INVALID_REQUEST, "invalid channel: " ++ channelRaw⟩ ∧
      (gatewayPairApprove env params).events = []) ∧
    (∀ (env : Collab) (req : HttpRequest) (channelRaw action : String),
      strStartsWith req.pathname PAIRING_BASE_PATH = true →
      pathSegs req.pathname = [channelRaw, action] →
      resolveChannel env.channels channelRaw = none →
      handlePairingHttpRequest env req =
        { result := HttpResult.responded 400
            { ok := false, error := some ("Invalid channel: " ++ channelRaw) },
          events := [] }) ∧
    (∀ (env : Collab) (req : HttpRequest) (channelRaw channel : String),
      strStartsWith req.pathname PAIRING_BASE_PATH = true →
      pathSegs req.pathname = [channelRaw, "approve"] →
      resolveChannel env.channels channelRaw = some channel →
      authPassed env req →
      req.method = "POST" →
      httpBodyCode (readJsonBody req.parsedBody) = "" →
      handlePairingHttpRequest env req =
        { result := HttpResult.responded 400
            { ok := false, error := some "code is required" },
          events := [] }) := by
  refine ⟨?_, ?_, ?_, ?_, ?_, ?_⟩
  · intro env params hval
    rw [gatewayPairList_invalid_params env params hval]
    exact ⟨rfl, rfl⟩
  · intro env params channelRaw hval hch hres
    rw [gatewayPairList_invalid_channel env params channelRaw hval hch hres]
    exact ⟨rfl, rfl⟩
  · intro env params hval
    rw [gatewayPairApprove_invalid_params env params hval]
    exact ⟨rfl, rfl⟩
  · intro env params channelRaw hval hch hres
    rw [gatewayPairApprove_invalid_channel env params channelRaw hval hch hres]
    exact ⟨rfl, rfl⟩
  · intro env req channelRaw action hstart hsegs hres
    exact handlePairing_invalid_channel env req channelRaw action hstart hsegs hres
  · intro env req channelRaw channel hstart hsegs hres hauth hm hcode
    rw [handlePairing_route_auth env req channelRaw "approve" channel
        hstart hsegs hres hauth]
    exact pairingAction_approve_empty_code env req channel hm hcode

/-- Claim C7 witness: the six amended conjuncts applied to concrete
invalid inputs against the sample collaborators. -/
theorem c7_witness :
    ((gatewayPairList sampleCollab JsValue.null).error =
        some ⟨ErrorCode.INVALID_REQUEST,
          "invalid channel.pair.list params: channel (string) required"⟩ ∧
      (gatewayPairList sampleCollab JsValue.null).events = []) ∧
    ((gatewayPairList sampleCollab
        (JsValue.obj [("channel", JsValue.str "x!")])).error =
        some ⟨ErrorCode.INVALID_REQUEST, "invalid channel: " ++ "x!"⟩ ∧
      (gatewayPairList sampleCollab
        (JsValue.obj [("channel", JsValue.str "x!")])).events = []) ∧
    ((gatewayPairApprove sampleCollab JsValue.null).error =
        some ⟨ErrorCode.INVALID_REQUEST,
          "invalid channel.pair.approve params: channel (string) and code (string) required"⟩ ∧
      (gatewayPairApprove sampleCollab JsValue.null).events = []) ∧
    ((gatewayPairApprove sampleCollab
        (JsValue.obj [("channel", JsValue.str "x!"), ("code", JsValue.str "1")])).error =
        some ⟨ErrorCode.INVALID_REQUEST, "invalid channel: " ++ "x!"⟩ ∧
      (gatewayPairApprove sampleCollab
        (JsValue.obj [("channel", JsValue.str "x!"), ("code", JsValue.str "1")])).events =
        []) ∧
    handlePairingHttpRequest sampleCollab
      { pathname := "/api/pairing/x!/list", method := "GET",
        parsedBody := none, localDirect := true, bearer := none } =
      { result := HttpResult.responded 400
          { ok := false, error := some ("Invalid channel: " ++ "x!") },
        events := [] } ∧
    handlePairingHttpRequest sampleCollab
      { pathname := "/api/pairing/sms/approve", method := "POST",
        parsedBody := some (JsValue.obj []), localDirect := true, bearer := none } =
      { result := HttpResult.responded 400
          { ok := false, error := some "code is required" },
        events := [] } :=
  ⟨c7_amended.1 sampleCollab JsValue.null (by decide),
   c7_amended.2.1 sampleCollab (JsValue.obj [("channel", JsValue.str "x!")])
     "x!" (by decide) (by decide) (by decide),
   c7_amended.2.2.1 sampleCollab JsValue.null (by decide),
   c7_amended.2.2.2.1 sampleCollab
     (JsValue.obj [("channel", JsValue.str "x!"), ("code", JsValue.str "1")])
     "x!" (by decide) (by decide) (by decide),
   c7_amended.2.2.2.2.1 sampleCollab
     { pathname := "/api/pairing/x!/list", method := "GET",
       parsedBody := none, localDirect := true, bearer := none }
     "x!" "list" (by decide) (by decide) (by decide),
   c7_amended.2.2.2.2.2 sampleCollab
     { pathname := "/api/pairing/sms/approve", method := "POST",
       parsedBody := some (JsValue.obj []), localDirect := true, bearer := none }
     "sms" "sms" (by decide) (by decide) (by decide) (Or.inl rfl) rfl rfl⟩

/-- Claim C8 counterexample: a non-local request with a bearer token
whose authorization engine call throws lets the exception escape the HTTP
handler instead of producing a structured response. -/
theorem c8_counterexample :
    handlePairingHttpRequest throwingAuthCollab
      { pathname := "/api/pairing/sms/approve", method := "POST",
        parsedBody := none, localDirect := false, bearer := some "tok" } =
      { result := HttpResult.threw "auth engine failure", events := [] } := by
  decide

/-- Claim C8 (amended): both gateway handlers always respond with an
explicit ok flag — carrying an error shape exactly when not ok — for
every collaborator behaviour, and the only exception that escapes the
HTTP handler is a throw of the awaited authorization engine call, which
is not guarded by any try/catch. -/
theorem c8_amended :
    (∀ (env : Collab) (params : JsValue),
      ((gatewayPairList env params).ok = true ∧
        (gatewayPairList env params).error = none) ∨
      ((gatewayPairList env params).ok = false ∧
        ∃ es, (gatewayPairList env params).error = some es)) ∧
    (∀ (env : Collab) (params : JsValue),
      ((gatewayPairApprove env params).ok = true ∧
        (gatewayPairApprove env params).error = none) ∨
      ((gatewayPairApprove env params).ok = false ∧
        ∃ es, (gatewayPairApprove env params).error = some es)) ∧
    (∀ (env : Collab) (req : HttpRequest) (e : String),
      (handlePairingHttpRequest env req).result = HttpResult.threw e →
      req.localDirect = false ∧
        ∃ token, req.bearer = some token ∧ env.authorize token = Except.error e) := by
  refine ⟨?_, ?_, ?_⟩
  · intro env params
    rcases hval : validateChannelPairListParams params with _ | _
    · rw [gatewayPairList_invalid_params env params hval]
      exact Or.inr ⟨rfl, _, rfl⟩
    · obtain ⟨channelRaw, hch, h1⟩ := validate_list_elim params hval
      rcases hres : resolveChannel env.channels channelRaw with _ | channel
      · rw [gatewayPairList_invalid_channel env params channelRaw hval hch hres]
        exact Or.inr ⟨rfl, _, rfl⟩
      · rcases hlist : env.listReqs channel with e | rs
        · rw [gatewayPairList_store_error env params channelRaw channel e
            hval hch hres hlist]
          exact Or.inr ⟨rfl, _, rfl⟩
        · rw [gatewayPairList_ok env params channelRaw channel rs hval hch hres hlist]
          exact Or.inl ⟨rfl, rfl⟩
  · intro env params
    rcases hval : validateChannelPairApproveParams params with _ | _
    · rw [gatewayPairApprove_invalid_params env params hval]
      exact Or.inr ⟨rfl, _, rfl⟩
    · obtain ⟨channelRaw, code, hch, hcode, h1, h2⟩ := validate_approve_elim params hval
      rcases hres : resolveChannel env.channels channelRaw with _ | channel
      · rw [gatewayPairApprove_invalid_channel env params channelRaw hval hch hres]
        exact Or.inr ⟨rfl, _, rfl⟩
      · rcases happ : env.approveCode channel code with e | o
        · rw [gatewayPairApprove_store_error env params channelRaw code channel e
            hval hch hcode hres happ]
          exact Or.inr ⟨rfl, _, rfl⟩
        · rcases o with _ | a
          · rw [gatewayPairApprove_no_match env params channelRaw code channel
              hval hch hcode hres happ]
            exact Or.inr ⟨rfl, _, rfl⟩
          · rcases hnot : jsTruthy (getField params "notify") with _ | _
            · rw [gatewayPairApprove_match_notify_off env params channelRaw code channel a
                hval hch hcode hres happ hnot]
              exact Or.inl ⟨rfl, rfl⟩
            · rcases hcfg : env.config with e | cfg
              · rw [gatewayPairApprove_match_config_error env params channelRaw code
                  channel a e hval hch hcode hres happ hnot hcfg]
                exact Or.inr ⟨rfl, _, rfl⟩
              · rw [gatewayPairApprove_match_notify_on env params channelRaw code
                  channel a cfg hval hch hcode hres happ hnot hcfg]
                exact Or.inl ⟨rfl, rfl⟩
  · intro env req e hthrew
    rcases handlePairing_cases env req with h1 | h1 | ⟨cr, ac, _, _, h1⟩ | h1 |
        ⟨t, e2, hloc, hbear, hauth, h1⟩ | ⟨cr, ac, ch, _, _, h1⟩
    · rw [h1] at hthrew
      exact absurd hthrew (by simp)
    · rw [h1] at hthrew
      exact absurd hthrew (by simp)
    · rw [h1] at hthrew
      exact absurd hthrew (by simp)
    · rw [h1] at hthrew
      exact absurd hthrew (by simp)
    · rw [h1] at hthrew
      simp only [HttpResult.threw.injEq] at hthrew
      subst hthrew
      exact ⟨hloc, t, hbear, hauth⟩
    · rw [h1] at hthrew
      exact absurd hthrew (pairingAction_ne_threw env req ch ac e)

/-- Claim C8 witness: the throw-origin implication of the amended
statement applied to the collaborators whose authorization engine throws,
certifying that the escaped exception came from the unguarded bearer
authorization call. -/
theorem c8_witness :
    ({ pathname := "/api/pairing/sms/approve", method := "POST",
        parsedBody := none, localDirect := false,
        bearer := some "tok" } : HttpRequest).localDirect = false ∧
    ∃ token,
      ({ pathname := "/api/pairing/sms/approve", method := "POST",
          parsedBody := none, localDirect := false,
          bearer := some "tok" } : HttpRequest).bearer = some token ∧
      throwingAuthCollab.authorize token = Except.error "auth engine failure" :=
  c8_amended.2.2 throwingAuthCollab
    { pathname := "/api/pairing/sms/approve", method := "POST",
      parsedBody := none, localDirect := false, bearer := some "tok" }
    "auth engine failure" (by decide)

/-- Claim C9 counterexample: a two-segment request whose method/action
pair is neither GET list nor POST approve is answered 400, not 404, when
its channel fails to resolve — channel resolution precedes the action
dispatch. -/
theorem c9_counterexample :
    handlePairingHttpRequest sampleCollab
      { pathname := "/api/pairing/nope!/frobnicate", method := "GET",
        parsedBody := none, localDirect := true, bearer := none } =
      { result := HttpResult.responded 400
          { ok := false, error := some "Invalid channel: nope!" },
        events := [] } := by
  decide


/-- Claim C9 (amended): under the prefix, any path without exactly two
nonempty segments is answered 404 unconditionally; for a two-segment
request whose channel resolves and which passes the authorization gate,
a method/action pair other than GET list or POST approve is answered
404, GET list performs the store list call, POST approve with an empty
extracted code is answered 400 without store contact, and POST approve
with a nonempty code performs exactly one store approve call with the
resolved channel and that code. -/
theorem c9_amended :
    (∀ (env : Collab) (req : HttpRequest),
      strStartsWith req.pathname PAIRING_BASE_PATH = true →
      (pathSegs req.pathname).length ≠ 2 →
      handlePairingHttpRequest env req =
        { result := HttpResult.responded 404 { ok := false, error := some "Not Found" },
          events := [] }) ∧
    (∀ (env : Collab) (req : HttpRequest) (channelRaw action channel : String),
      strStartsWith req.pathname PAIRING_BASE_PATH = true →
      pathSegs req.pathname = [channelRaw, action] →
      resolveChannel env.channels channelRaw = some channel →
      authPassed env req →
      ¬(action = "list" ∧ req.method = "GET") →
      ¬(action = "approve" ∧ req.method = "POST") →
      handlePairingHttpRequest env req =
        { result := HttpResult.responded 404 { ok := false, error := some "Not Found" },
          events := [] }) ∧
    (∀ (env : Collab) (req : HttpRequest) (channelRaw channel : String),
      strStartsWith req.pathname PAIRING_BASE_PATH = true →
      pathSegs req.pathname = [channelRaw, "list"] →
      resolveChannel env.channels channelRaw = some channel →
      authPassed env req →
      req.method = "GET" →
      (handlePairingHttpRequest env req).events = [Event.storeList channel]) ∧
    (∀ (env : Collab) (req : HttpRequest) (channelRaw channel : String),
      strStartsWith req.pathname PAIRING_BASE_PATH = true →
      pathSegs req.pathname = [channelRaw, "approve"] →
      resolveChannel env.channels channelRaw = some channel →
      authPassed env req →
      req.method = "POST" →
      httpBodyCode (readJsonBody req.parsedBody) = "" →
      handlePairingHttpRequest env req =
        { result := HttpResult.responded 400
            { ok := false, error := some "code is required" },
          events := [] }) ∧
    (∀ (env : Collab) (req : HttpRequest) (channelRaw channel code : String),
      strStartsWith req.pathname PAIRING_BASE_PATH = true →
      pathSegs req.pathname = [channelRaw, "approve"] →
      resolveChannel env.channels channelRaw = some channel →
      authPassed env req →
      req.method = "POST" →
      httpBodyCode (readJsonBody req.parsedBody) = code →
      code ≠ "" →
      storeApproveArgs (handlePairingHttpRequest env req).events = [(channel, code)]) := by
  refine ⟨?_, ?_, ?_, ?_, ?_⟩
  · intro env req hstart hlen
    exact handlePairing_bad_shape env req hstart hlen
  · intro env req channelRaw action channel hstart hsegs hres hauth hnl hna
    rw [handlePairing_route_auth env req channelRaw action channel hstart hsegs hres hauth]
    exact pairingAction_other env req channel action hnl hna
  · intro env req channelRaw channel hstart hsegs hres hauth hm
    rw [handlePairing_route_auth env req channelRaw "list" channel hstart hsegs hres hauth]
    rcases hlist : env.listReqs channel with e | rs
    · rw [pairingAction_list_store_error env req channel e hm hlist]
    · rw [pairingAction_list_ok env req channel rs hm hlist]
  · intro env req channelRaw channel hstart hsegs hres hauth hm hcode
    rw [handlePairing_route_auth env req channelRaw "approve" channel hstart hsegs hres hauth]
    exact pairingAction_approve_empty_code env req channel hm hcode
  · intro env req channelRaw channel code hstart hsegs hres hauth hm hcode hne
    rw [handlePairing_route_auth env req channelRaw "approve" channel hstart hsegs hres hauth]
    exact pairingAction_approve_store_called env req channel code hm hcode hne

/-- Claim C9 witness: the five amended conjuncts applied to concrete
requests against the sample collaborators. -/
theorem c9_witness :
    handlePairingHttpRequest sampleCollab
      { pathname := "/api/pairing/sms", method := "GET",
        parsedBody := none, localDirect := true, bearer := none } =
      { result := HttpResult.responded 404 { ok := false, error := some "Not Found" },
        events := [] } ∧
    handlePairingHttpRequest sampleCollab
      { pathname := "/api/pairing/sms/frobnicate", method := "GET",
        parsedBody := none, localDirect := true, bearer := none } =
      { result := HttpResult.responded 404 { ok := false, error := some "Not Found" },
        events := [] } ∧
    (handlePairingHttpRequest sampleCollab
      { pathname := "/api/pairing/sms/list", method := "GET",
        parsedBody := none, localDirect := true, bearer := none }).events =
      [Event.storeList "sms"] ∧
    handlePairingHttpRequest sampleCollab
      { pathname := "/api/pairing/sms/approve", method := "POST",
        parsedBody := none, localDirect := true, bearer := none } =
      { result := HttpResult.responded 400
          { ok := false, error := some "code is required" },
        events := [] } ∧
    storeApproveArgs (handlePairingHttpRequest sampleCollab
      { pathname := "/api/pairing/sms/approve", method := "POST",
        parsedBody := some (JsValue.obj [("code", JsValue.str "123")]),
        localDirect := true, bearer := none }).events = [("sms", "123")] :=
  ⟨c9_amended.1 sampleCollab
     { pathname := "/api/pairing/sms", method := "GET",
       parsedBody := none, localDirect := true, bearer := none }
     (by decide) (by decide),
   c9_amended.2.1 sampleCollab
     { pathname := "/api/pairing/sms/frobnicate", method := "GET",
       parsedBody := none, localDirect := true, bearer := none }
     "sms" "frobnicate" "sms" (by decide) (by decide) (by decide) (Or.inl rfl)
     (by simp) (by simp),
   c9_amended.2.2.1 sampleCollab
     { pathname := "/api/pairing/sms/list", method := "GET",
       parsedBody := none, localDirect := true, bearer := none }
     "sms" "sms" (by decide) (by decide) (by decide) (Or.inl rfl) rfl,
   c9_amended.2.2.2.1 sampleCollab
     { pathname := "/api/pairing/sms/approve", method := "POST",
       parsedBody := none, localDirect := true, bearer := none }
     "sms" "sms" (by decide) (by decide) (by decide) (Or.inl rfl) rfl rfl,
   c9_amended.2.2.2.2 sampleCollab
     { pathname := "/api/pairing/sms/approve", method := "POST",
       parsedBody := some (JsValue.obj [("code", JsValue.str "123")]),
       localDirect := true, bearer := none }
     "sms" "sms" "123" (by decide) (by decide) (by decide) (Or.inl rfl) rfl rfl
     (by decide)⟩

/-- Claim C10: the HTTP adapter claims every request whose pathname
merely starts with the literal "/api/pairing" — no following slash is
required — and in particular "/api/pairingsms/list" is handled as channel
"sms" with action "list" rather than passed through unhandled. -/
theorem c10_greedy_base_path :
    (∀ (env : Collab) (req : HttpRequest),
      strStartsWith req.pathname PAIRING_BASE_PATH = true →
      (handlePairingHttpRequest env req).result ≠ HttpResult.unhandled) ∧
    (∀ (env : Collab) (rs : List PairingRequest),
      env.listReqs "sms" = Except.ok rs →
      handlePairingHttpRequest env
        { pathname := "/api/pairingsms/list", method := "GET",
          parsedBody := none, localDirect := true, bearer := none } =
        { result := HttpResult.responded 200
            { ok := true, channel := some "sms", requests := some rs },
          events := [Event.storeList "sms"] }) := by
  constructor
  · intro env req hstart
    unfold handlePairingHttpRequest
    rw [hstart]
    simp only [Bool.not_true, Bool.false_eq_true, if_false]
    rcases hsegs : pathSegs req.pathname with _ | ⟨a, _ | ⟨b, _ | ⟨c, rest⟩⟩⟩
    · simp
    · simp
    · rcases hres : resolveChannel env.channels a with _ | channel
      · simp [hres]
      · simp only [hres]
        rcases hloc : req.localDirect with _ | _
        · rcases hbear : req.bearer with _ | token
          · simp [hbear]
          · simp only [hbear]
            rcases hauth : env.authorize token with e | ok
            · simp [hauth]
            · rcases ok with _ | _
              · simp [hauth]
              · simp only [hauth]
                exact pairingAction_ne_unhandled env req channel b
        · exact pairingAction_ne_unhandled env req channel b
    · simp
  · intro env rs hlist
    rw [handlePairing_route_local env
        { pathname := "/api/pairingsms/list", method := "GET",
          parsedBody := none, localDirect := true, bearer := none }
        "sms" "list" "sms" (by decide) (by decide)
        (resolveChannel_sms env.channels) rfl]
    exact pairingAction_list_ok env
      { pathname := "/api/pairingsms/list", method := "GET",
        parsedBody := none, localDirect := true, bearer := none }
      "sms" rs rfl hlist

/-- Claim C10 witness: the statement applied to the sample collaborators,
whose store lists one pending request for the channel "sms". -/
theorem c10_witness :
    (handlePairingHttpRequest sampleCollab
      { pathname := "/api/pairingzzz", method := "GET",
        parsedBody := none, localDirect := true, bearer := none }).result ≠
      HttpResult.unhandled ∧
    handlePairingHttpRequest sampleCollab
      { pathname := "/api/pairingsms/list", method := "GET",
        parsedBody := none, localDirect := true, bearer := none } =
      { result := HttpResult.responded 200
          { ok := true, channel := some "sms",
            requests := some [{ id := "req_1", code := "123" }] },
        events := [Event.storeList "sms"] } :=
  ⟨c10_greedy_base_path.1 sampleCollab
     { pathname := "/api/pairingzzz", method := "GET",
       parsedBody := none, localDirect := true, bearer := none }
     (by decide),
   c10_greedy_base_path.2 sampleCollab [{ id := "req_1", code := "123" }] rfl⟩

end Pairing
